import Mathlib

/-!
Verification development for the DeFi risk-assessment engine
(`defi_complete_risk_assessment.py`).

The scoring/classification core of the program is shallowly embedded here:

* Python numbers that participate in scoring are modelled as `ℚ` (the score
  arithmetic only uses `+ - * / max min round` on decimal literals, which is
  exact over `ℚ`); holder counts and day counts are `Int`.
* The per-token fact record (`risk_report`) is a nested Python dict.  It is
  modelled by the structure `RiskReport` below.  A field accessed with
  `d.get(k, default)` is modelled by the default-collapsed value; a field
  accessed with a raising `d[k]` (or a `.get` on a value of the wrong type)
  is modelled with `Option`, where `none` means the access raises.
* Network fetches and wall-clock derived values (contract age in days,
  days since last update, external AML verdicts) are passed in as
  parameters: the code consumes their results as plain data.
* Python `round` is round-half-to-even (`pyRound` below).
-/

/-- Python `str.lower()`, semantically `String.toLower`, written through the
character list so that proofs can evaluate it. -/
def String.pyLower (s : String) : String := String.mk (s.toList.map Char.toLower)

/-- Python `len` on a string, semantically `String.length`, written through
the character list so that proofs can evaluate it. -/
def String.pyLen (s : String) : Nat := s.toList.length

namespace DeFi

/-- Substring test: `strContains s pat` models Python `pat in s`. -/
def strContains (s pat : String) : Bool :=
  let sl := s.toList
  let pl := pat.toList
  (List.range (sl.length + 1)).any (fun i => (sl.drop i).take pl.length == pl)

/-- Python `round` on a rational: round half to even (banker's rounding). -/
def pyRound (q : ℚ) : ℤ :=
  let f := ⌊q⌋
  let frac := q - f
  if frac < 1/2 then f
  else if 1/2 < frac then f + 1
  else if f % 2 = 0 then f else f + 1

/-- `max(1, min(10, score))`, the clamp that ends most scoring functions. -/
def clamp110 (q : ℚ) : ℚ := max 1 (min 10 q)

/-- `max(1, min(9, round(score)))`, the clamp used by `score_dev_activity`,
`score_aml_data` and `score_compliance_data`. -/
def clampRound19 (q : ℚ) : ℚ := ((max 1 (min 9 (pyRound q)) : ℤ) : ℚ)

/-- `{'total_holders': …, 'top10_concentration': …}` as returned by
`get_holder_data` and stored in `risk_report['onchain']['holders']`. -/
structure HolderData where
  total_holders : Int
  top10_concentration : ℚ
deriving DecidableEq, Repr

/-- The default holder record: `get_holder_data` starts from (and, with no
source available, returns) `total_holders = 0`, `top10_concentration = 100`,
the same values the `assess_token` skeleton uses. -/
def defaultHolders : HolderData := ⟨0, 100⟩

/-- The value stored under `risk_report['onchain']['liquidity']`.  The
pipeline stores a number there, but the scoring fallbacks read it as
`.get('liquidity', {}).get('total_liquidity_usd', 0)`: on a number that
`.get` raises `AttributeError` (caught by the enclosing `try`), on a missing
key it yields `0`, and on a dict it yields the stored value. -/
inductive LiquidityField where
  | num (v : ℚ)
  | tbl (total_liquidity_usd : ℚ)
  | absent
deriving DecidableEq, Repr

/-- One CoinGecko GitHub metrics block (`project_data['github']`); each
metric is read with `.get(metric)` and compared only `if val is not None`. -/
structure GithubMetrics where
  commit_count_4_weeks : Option ℚ
  stars : Option ℚ
  forks : Option ℚ
  open_issues : Option ℚ
  contributors : Option ℚ
deriving DecidableEq, Repr

/-- One CoinGecko ticker; only `t.get('market', {}).get('name', '')` is read. -/
structure Ticker where
  market_name : String
deriving DecidableEq, Repr

/-- One team entry; the code only tests `member.get('name') and
member.get('position')`, collapsed to a single truthiness bit. -/
structure TeamMember where
  named : Bool
deriving DecidableEq, Repr

/-- The CoinGecko `links` block.  Fields the code only tests for truthiness
are `Bool`; `homepage` keeps list structure because `score_compliance_data`
indexes `links.get('homepage', [''])[0]` (raising on a present empty list),
and `repos_url.github` keeps its list-of-URLs shape because
`score_dev_activity` can end up calling `.get` on it. -/
structure Links where
  homepage : Option (List String)
  whitepaper : Bool
  repos_url_github : List String
  twitter_screen_name : Bool
  telegram_channel_identifier : Bool
  subreddit_url : Bool
  discord : Bool
  medium : Bool
  reddit : Bool
  linkedin : Bool
  legal : Bool
  blog : Bool
  announcement : Bool
  community : Bool
  forum : Bool
  governance : Bool
  source_code : Bool
  docs : Bool
  documentation : Bool
deriving DecidableEq, Repr

/-- The empty `links` dict (every access falls back to its default). -/
def Links.empty : Links :=
  ⟨none, false, [], false, false, false, false, false, false, false, false,
   false, false, false, false, false, false, false, false⟩

/-- The CoinGecko `market_data` block.  `market_cap` and `total_volume` are
`Option ℚ`: `none` means the key is absent (so the raising accesses
`['market_cap']` / `['total_volume']` fail) and `some v` carries the value of
the inner `.get('usd', 0)` (absence of `'usd'` is indistinguishable from 0
everywhere in the code). -/
structure MarketData where
  market_cap : Option ℚ
  total_volume : Option ℚ
  price_change_percentage_30d : ℚ
  price_change_percentage_24h : ℚ
deriving DecidableEq, Repr

/-- The empty `market_data` dict. -/
def MarketData.empty : MarketData := ⟨none, none, 0, 0⟩

/-- The CoinGecko project block (`risk_report['market']['coingecko']`).
`genesis_age_days` and `days_since_update` are the day counts the code
derives from `genesis_date` / `last_updated` relative to the wall clock;
`none` models an absent or unparseable date. -/
structure Coingecko where
  market_data : Option MarketData
  links : Links
  description_en : String
  community_score : ℚ
  developer_score : ℚ
  trust_score : ℚ
  genesis_age_days : Option Int
  days_since_update : Option Int
  team : List TeamMember
  company : Bool
  tickers : List Ticker
  asset_platform_id : String
  github : Option GithubMetrics
deriving DecidableEq, Repr

/-- The empty CoinGecko block. -/
def Coingecko.empty : Coingecko :=
  ⟨none, Links.empty, "", 0, 0, 0, none, none, [], false, [], "", none⟩

/-- `risk_report['market']`: only the `coingecko` sub-dict is consumed by the
scoring functions; `none` on the inner field means the key is absent. -/
structure Market where
  coingecko : Option Coingecko
deriving DecidableEq, Repr

/-- One Moralis transfer entry. -/
structure Transfer where
  from_address : String
  value : Option ℚ
  block_timestamp : Bool
deriving DecidableEq, Repr

/-- Moralis token metadata; truthiness of the whole dict is modelled by the
surrounding `Option`. -/
structure Metadata where
  has_name : Bool
  has_symbol : Bool
  has_decimals : Bool
  mtype : String
  description : String
deriving DecidableEq, Repr

/-- `enhanced['moralis']`. -/
structure MoralisData where
  metadata : Option Metadata
  transfers : List Transfer
deriving DecidableEq, Repr

/-- `enhanced['defillama']`; only truthiness of `price` / `yields` is read. -/
structure DefillamaData where
  price : Bool
  yields : Bool
deriving DecidableEq, Repr

/-- `enhanced['zapper']`. -/
structure ZapperData where
  portfolio : Bool
  protocol : Bool
deriving DecidableEq, Repr

/-- `enhanced['debank']`. -/
structure DebankData where
  portfolio : Bool
  tokens : Bool
deriving DecidableEq, Repr

/-- The `enhanced` block the scoring functions read with
`risk_report.get('enhanced', {}).get(provider, {})`.  `none` models an
absent-or-empty (falsy) provider dict. -/
structure Enhanced where
  defillama : Option DefillamaData
  moralis : Option MoralisData
  zapper : Option ZapperData
  debank : Option DebankData
deriving DecidableEq, Repr

/-- The empty `enhanced` block. -/
def Enhanced.empty : Enhanced := ⟨none, none, none, none⟩

/-- A Santiment time-series as consumed by the list comprehensions: each
entry is `some v` for a dict point carrying a non-`None` `'value'`, and
`none` for any other entry (non-dict, or value `None`).  The skeleton's
`{'timeseriesData': []}` dict iterates as one non-dict entry, i.e. `[none]`. -/
structure SantimentData where
  dev : List (Option ℚ)
  social : List (Option ℚ)
deriving DecidableEq, Repr

/-- The value stored under `risk_report['security']`.  The pipeline stores a
list of reports, while `score_code_security` reads it as a dict
(`.get('audits', [])` / `.get('reports', [])`): calling `.get` on a truthy
list raises `AttributeError` (caught by that function's outer `try`). -/
inductive SecurityField where
  | absent
  | lst (items : List Unit)
  | dct (audits : Nat) (reports : Bool)
deriving DecidableEq, Repr

/-- Breadcrumbs risk verdict consumed by `score_compliance_data`. -/
structure Breadcrumbs where
  riskScore : ℚ
  sanctions : Bool
  illicit : Bool
deriving DecidableEq, Repr

/-- The onchain block of the fact record. `contract_verified` is `Option`
because `score_tech_innovation` reads it with a raising
`risk_report['onchain']['contract_verified']`. -/
structure Onchain where
  contract_verified : Option String
  holders : Option HolderData
  liquidity : LiquidityField
  contract_source : String
  contract_age_days : Option Int
  proxy_contract : Bool
  upgradeable_contract : Bool
  red_flags : List String
deriving DecidableEq, Repr

/-- The consolidated per-token fact record (`risk_report`).  `none` in
`market` / `onchain` means the key is absent, as in an entirely empty dict. -/
structure RiskReport where
  market : Option Market
  onchain : Option Onchain
  security : SecurityField
  santiment : SantimentData
  enhanced : Enhanced
  breadcrumbs_risk : Option Breadcrumbs
deriving DecidableEq, Repr

/-- The entirely empty fact record `{}`: every modelled access behaves as it
does on an empty Python dict. -/
def RiskReport.empty : RiskReport :=
  ⟨none, none, .absent, ⟨[], []⟩, Enhanced.empty, none⟩

/-- `risk_report.get('market', {}).get('coingecko', {})`, the defaulted
project-data read used by most scoring functions. -/
def RiskReport.cgD (r : RiskReport) : Coingecko :=
  ((r.market.bind (·.coingecko))).getD Coingecko.empty

/-- `project_data.get('market_data', {})` on the defaulted project data. -/
def RiskReport.mdD (r : RiskReport) : MarketData :=
  (r.cgD).market_data.getD MarketData.empty

/-- `….get('market_data', {}).get('market_cap', {}).get('usd', 0)`. -/
def RiskReport.marketCapD (r : RiskReport) : ℚ :=
  (r.mdD).market_cap.getD 0

/-- `….get('market_data', {}).get('total_volume', {}).get('usd', 0)`. -/
def RiskReport.volume24hD (r : RiskReport) : ℚ :=
  (r.mdD).total_volume.getD 0

/-- The raising chain
`risk_report['market']['coingecko']['market_data']['market_cap'].get('usd', 0)`;
`none` means the access raised. -/
def RiskReport.marketCapRaise (r : RiskReport) : Option ℚ :=
  (r.market.bind (·.coingecko)).bind (·.market_data) |>.bind (·.market_cap)

/-- The raising chain
`risk_report['market']['coingecko']['market_data']['total_volume'].get('usd', 0)`. -/
def RiskReport.volume24hRaise (r : RiskReport) : Option ℚ :=
  (r.market.bind (·.coingecko)).bind (·.market_data) |>.bind (·.total_volume)

/-- `risk_report.get('onchain', {}).get('holders', {})`; `none` is the falsy
empty dict. -/
def RiskReport.holdersD (r : RiskReport) : Option HolderData :=
  r.onchain.bind (·.holders)

/-- `….get('holders', {}).get('total_holders', 0)`. -/
def RiskReport.totalHoldersD (r : RiskReport) : Int :=
  ((r.holdersD).map (·.total_holders)).getD 0

/-- `risk_report.get('onchain', {}).get('liquidity', {}).get('total_liquidity_usd', 0)`
inside a `try`: `none` means the access raised (number stored under
`'liquidity'`), `some v` the value the expression yields. -/
def RiskReport.liqUsd (r : RiskReport) : Option ℚ :=
  match r.onchain with
  | none => some 0
  | some oc =>
    match oc.liquidity with
    | .num _ => none
    | .tbl v => some v
    | .absent => some 0

/-- `risk_report.get('onchain', {}).get('contract_verified', '')`. -/
def RiskReport.contractVerifiedD (r : RiskReport) : String :=
  ((r.onchain.bind (·.contract_verified))).getD ""

/-- `risk_report.get('onchain', {}).get('contract_source', '')`. -/
def RiskReport.contractSourceD (r : RiskReport) : String :=
  ((r.onchain.map (·.contract_source))).getD ""

/-- `risk_report.get('enhanced', {}).get('defillama', {})` truthy tests. -/
def RiskReport.dlPrice (r : RiskReport) : Bool :=
  ((r.enhanced.defillama.map (·.price))).getD false

/-- DeFiLlama `yields` truthiness. -/
def RiskReport.dlYields (r : RiskReport) : Bool :=
  ((r.enhanced.defillama.map (·.yields))).getD false

/-- `risk_report.get('enhanced', {}).get('moralis', {}).get('transfers', [])`. -/
def RiskReport.transfersD (r : RiskReport) : List Transfer :=
  ((r.enhanced.moralis.map (·.transfers))).getD []

/-- `risk_report.get('enhanced', {}).get('moralis', {}).get('metadata', {})`;
`none` is the falsy empty dict. -/
def RiskReport.metadataD (r : RiskReport) : Option Metadata :=
  r.enhanced.moralis.bind (·.metadata)

/-- Fuel-driven helper for `countSubstr`; with fuel at least the length of
the scanned list it counts non-overlapping occurrences of `pl`. -/
def countSubstrGo (pl : List Char) : Nat → List Char → Nat
  | 0, _ => 0
  | _ + 1, [] => 0
  | fuel + 1, c :: t =>
    if (c :: t).take pl.length == pl then
      1 + countSubstrGo pl fuel ((c :: t).drop pl.length)
    else countSubstrGo pl fuel t

/-- Non-overlapping substring count, Python `s.count(pat)` (used on the
contract source); the patterns that occur in the code are never empty. -/
def countSubstr (s pat : String) : Nat :=
  countSubstrGo pat.toList s.toList.length s.toList

/-- Distinct-element count, Python `len(set(xs))`. -/
def countDistinct (xs : List String) : Nat :=
  xs.dedup.length

/-- `score_industry_impact` (lines 1935-2006): base 5, primary market-cap
cascade inside a `try`, then alternative signals when no primary decision
was reached; clamp to `[1,10]`.  No access outside an inner `try` can raise
on the modelled record type, so the outer handler (`return 7`) is only
reachable in Python on shapes outside this model. -/
def score_industry_impact_core (r : RiskReport) : ℚ :=
  let s : ℚ := 5
  let sdf : ℚ × Bool :=
    match r.marketCapRaise with
    | none => (s, false)
    | some mc =>
      if mc > 1000000000 then (s - 3, true)
      else if mc > 100000000 then (s - 2, true)
      else if mc > 10000000 then (s - 1, true)
      else if mc > 1000000 then (s + 0, false)
      else (s + 2, false)
  let s := sdf.1
  let s :=
    if sdf.2 then s else
      let s := if r.dlPrice || r.dlYields then s - 1 else s
      let transfers := r.transfersD
      let s := if transfers ≠ [] && transfers.length > 10 then s - 1 else s
      let h := r.totalHoldersD
      let s :=
        if h > 50000 then s - 2
        else if h > 10000 then s - 1
        else if h < 1000 then s + 1
        else s
      let s :=
        match r.liqUsd with
        | none => s
        | some liq =>
          if liq > 10000000 then s - 2
          else if liq > 1000000 then s - 1
          else if liq < 100000 then s + 1
          else s
      s
  s

/-- The clamp of `score_industry_impact`. -/
def score_industry_impact (r : RiskReport) : ℚ :=
  clamp110 (score_industry_impact_core r)

/-- The substring sets used by `score_tech_innovation` (`'curve'` really
appears twice in the source list, so a contract containing it counts it
twice). -/
def ADVANCED_FEATURES : List String :=
  ["flashloan", "liquidation", "collateral", "oracle", "amm", "curve",
   "governance", "staking", "yield", "lending", "borrowing", "swap",
   "uniswap", "pancakeswap", "sushiswap", "balancer", "curve"]

/-- Advanced Solidity patterns checked by `score_tech_innovation`. -/
def ADVANCED_PATTERNS : List String :=
  ["reentrancyguard", "pausable", "ownable", "accesscontrol",
   "erc20", "erc721", "erc1155", "multisig", "timelock"]

/-- `score_tech_innovation` (lines 2008-2169).  The very first statement is
the raising access `risk_report['onchain']['contract_verified']`, caught
only by the outer handler, so a record without that path scores 7. -/
def score_tech_innovation_core (r : RiskReport) (cv : String) : ℚ :=
  let s : ℚ := 5
  let innov : ℚ := 0
  let (s, df, innov) :=
    if cv = "verified" then (s - 2, true, innov + 2) else (s + 2, false, innov - 2)
  let src := r.contractSourceD
  let (s, df, innov) :=
    if src ≠ "" then
      let srcLower := src.pyLower
      let featureCount := (ADVANCED_FEATURES.filter (fun p => strContains srcLower p)).length
      let (s, df, innov) :=
        if featureCount ≥ 4 then (s - 2, true, innov + 3)
        else if featureCount ≥ 2 then (s - 1, true, innov + 2)
        else if featureCount = 0 then (s + 2, df, innov - 2)
        else (s, df, innov)
      let patternCount := (ADVANCED_PATTERNS.filter (fun p => strContains srcLower p)).length
      let (s, innov) :=
        if patternCount ≥ 3 then (s - 1, innov + 2)
        else if patternCount = 0 then (s + 1, innov - 1)
        else (s, innov)
      let (s, innov) :=
        if strContains srcLower "proxy" || strContains srcLower "upgrade" then
          (s + 1, innov + 1)
        else (s, innov)
      (s, df, innov)
    else (s, df, innov)
  let (s, df, innov) :=
    match r.volume24hRaise with
    | none => (s, df, innov)
    | some v =>
      if v > 10000000 then (s - 2, true, innov + 3)
      else if v > 1000000 then (s - 1, true, innov + 2)
      else if v < 10000 then (s + 2, df, innov - 2)
      else (s, df, innov)
  let (s, innov) :=
    if df then (s, innov) else
      let (s, innov) :=
        match r.metadataD with
        | none => (s, innov)
        | some md =>
          let tl := md.mtype.pyLower
          if strContains tl "erc1155" then (s - 2, innov + 3)
          else if strContains tl "erc721" then (s - 1, innov + 2)
          else if strContains tl "erc20" then (s, innov + 1)
          else (s, innov)
      let (s, innov) := if r.dlYields then (s - 1, innov + 2) else (s, innov)
      let innov := if r.dlPrice then innov + 1 else innov
      let (s, innov) :=
        let transfers := r.transfersD
        if transfers ≠ [] then
          let ua := countDistinct (transfers.map (·.from_address))
          if ua > 50 then (s - 1, innov + 2)
          else if ua > 20 then (s, innov + 1)
          else if ua < 5 then (s + 1, innov - 1)
          else (s, innov)
        else (s, innov)
      let (s, innov) :=
        match r.holdersD with
        | none => (s, innov)
        | some h =>
          if h.total_holders > 50000 then (s - 1, innov + 2)
          else if h.total_holders > 10000 then (s, innov + 1)
          else if h.total_holders < 1000 then (s + 1, innov - 1)
          else (s, innov)
      let (s, innov) :=
        match r.marketCapRaise with
        | none => (s, innov)
        | some mc =>
          if mc > 1000000000 then (s - 1, innov + 2)
          else if mc > 100000000 then (s, innov + 1)
          else if mc < 1000000 then (s + 1, innov - 1)
          else (s, innov)
      (s, innov)
  let s :=
    if innov ≥ 5 then max 1 (s - 1)
    else if innov ≤ -3 then min 10 (s + 1)
    else s
  s

/-- The outer structure of `score_tech_innovation`: the raising first access
scores 7, otherwise the body result is clamped. -/
def score_tech_innovation (r : RiskReport) : ℚ :=
  match r.onchain.bind (·.contract_verified) with
  | none => 7
  | some cv => clamp110 (score_tech_innovation_core r cv)

/-- `score_whitepaper_quality` (lines 2171-2342). -/
def score_whitepaper_quality_core (r : RiskReport) : ℚ :=
  let cg := r.cgD
  let links := cg.links
  let s : ℚ := 5
  let doc : ℚ := 0
  let (s, df, doc) :=
    if links.homepage.getD [] ≠ [] then (s - 1, true, doc + 2)
    else (s + 2, false, doc - 2)
  let (s, df, doc) :=
    if links.whitepaper then (s - 2, true, doc + 3) else (s + 2, df, doc - 3)
  let (s, df, doc) :=
    if links.repos_url_github ≠ [] then (s - 1, true, doc + 2) else (s + 1, df, doc - 1)
  let socialPresence : Nat :=
    (if links.twitter_screen_name then 1 else 0) +
    (if links.telegram_channel_identifier then 1 else 0) +
    (if links.subreddit_url then 1 else 0)
  let (s, df, doc) :=
    if socialPresence ≥ 3 then (s - 1, true, doc + 2)
    else if socialPresence ≥ 2 then (s - 1/2, true, doc + 1)
    else if socialPresence = 0 then (s + 1, df, doc - 1)
    else (s, df, doc)
  let descr := cg.description_en
  let (s, df, doc) :=
    if descr ≠ "" && descr.pyLen > 500 then (s - 1, true, doc + 2)
    else if descr ≠ "" && descr.pyLen > 200 then (s - 1/2, true, doc + 1)
    else if descr = "" || descr.pyLen < 50 then (s + 1, df, doc - 1)
    else (s, df, doc)
  let (s, doc) :=
    if df then (s, doc) else
      let src := r.contractSourceD
      let (s, doc) :=
        if src ≠ "" then
          let commentLines := countSubstr src "//" + countSubstr src "/*" + countSubstr src "*/"
          let (s, doc) :=
            if commentLines > 20 then (s - 1, doc + 2)
            else if commentLines > 10 then (s, doc + 1)
            else if commentLines < 2 then (s + 1, doc - 1)
            else (s, doc)
          if strContains src "@title" || strContains src "@author" || strContains src "@notice" then
            (s - 1, doc + 2)
          else (s, doc)
        else (s, doc)
      let mc := (cg.market_data.getD MarketData.empty).market_cap.getD 0
      let (s, doc) :=
        if mc > 100000000 then (s - 1, doc + 2)
        else if mc > 10000000 then (s, doc + 1)
        else if mc < 100000 then (s + 1, doc - 1)
        else (s, doc)
      let h := r.totalHoldersD
      let (s, doc) :=
        if h > 50000 then (s - 1, doc + 2)
        else if h > 10000 then (s, doc + 1)
        else if h < 1000 then (s + 1, doc - 1)
        else (s, doc)
      let doc :=
        match r.metadataD with
        | none => doc
        | some md =>
          let doc := if md.has_name && md.has_symbol && md.has_decimals then doc + 1 else doc
          if md.description ≠ "" then doc + 1 else doc
      let doc := if r.dlPrice || r.dlYields then doc + 1 else doc
      let profCount : Nat :=
        (if links.linkedin then 1 else 0) + (if links.medium then 1 else 0) +
        (if links.blog then 1 else 0) + (if links.docs then 1 else 0) +
        (if links.documentation then 1 else 0)
      let (s, doc) :=
        if profCount ≥ 2 then (s - 1, doc + 2)
        else if profCount ≥ 1 then (s, doc + 1)
        else (s, doc)
      (s, doc)
  let s :=
    if doc ≥ 8 then max 1 (s - 2)
    else if doc ≥ 6 then max 1 (s - 1)
    else if doc ≤ -6 then min 10 (s + 2)
    else if doc ≤ -4 then min 10 (s + 1)
    else s
  let mc2 := (cg.market_data.getD MarketData.empty).market_cap.getD 0
  let s :=
    if mc2 > 10000000000 then (if s > 7 then 7 else s)
    else if mc2 > 1000000000 then (if s > 8 then 8 else s)
    else s
  s

/-- The clamp of `score_whitepaper_quality`. -/
def score_whitepaper_quality (r : RiskReport) : ℚ :=
  clamp110 (score_whitepaper_quality_core r)

/-- `score_roadmap_adherence` (lines 2344-2564). -/
def score_roadmap_adherence_core (r : RiskReport) : ℚ :=
  let cg := r.cgD
  let s : ℚ := 5
  let adh : ℚ := 0
  let (s, df, adh) :=
    match cg.genesis_age_days with
    | none => (s, false, adh)
    | some d =>
      if d > 1095 then (s - 2, true, adh + 3)
      else if d > 365 then (s - 1, true, adh + 2)
      else if d < 30 then (s + 3, false, adh - 3)
      else if d < 90 then (s + 2, false, adh - 2)
      else if d < 180 then (s + 1, false, adh - 1)
      else (s, false, adh)
  let (s, df, adh) :=
    match cg.days_since_update with
    | none => (s, df, adh)
    | some d =>
      if d < 3 then (s - 2, true, adh + 3)
      else if d < 7 then (s - 1, true, adh + 2)
      else if d < 30 then (s, df, adh + 1)
      else if d > 180 then (s + 3, df, adh - 3)
      else if d > 90 then (s + 2, df, adh - 2)
      else if d > 30 then (s + 1, df, adh - 1)
      else (s, df, adh)
  let pc := (cg.market_data.getD MarketData.empty).price_change_percentage_30d
  let (s, df, adh) :=
    if pc ≠ 0 && pc > 100 then (s - 2, true, adh + 3)
    else if pc ≠ 0 && pc > 50 then (s - 1, true, adh + 2)
    else if pc ≠ 0 && pc > 20 then (s, df, adh + 1)
    else if pc ≠ 0 && pc < -50 then (s + 2, df, adh - 2)
    else if pc ≠ 0 && pc < -20 then (s + 1, df, adh - 1)
    else (s, df, adh)
  let cs := cg.community_score
  let (s, df, adh) :=
    if cs > 80 then (s - 1, true, adh + 2)
    else if cs > 50 then (s - 1/2, true, adh + 1)
    else if cs < 10 then (s + 1, df, adh - 1)
    else (s, df, adh)
  let (s, adh) :=
    if df then (s, adh) else
      let (s, adh) :=
        let transfers := r.transfersD
        if transfers ≠ [] then
          let recent := (transfers.filter (·.block_timestamp)).length
          if recent > 100 then (s - 2, adh + 3)
          else if recent > 50 then (s - 1, adh + 2)
          else if recent > 20 then (s, adh + 1)
          else if recent < 5 then (s + 2, adh - 2)
          else if recent < 10 then (s + 1, adh - 1)
          else (s, adh)
        else (s, adh)
      let (s, adh) := if r.dlYields then (s - 1, adh + 2) else (s, adh)
      let adh := if r.dlPrice then adh + 1 else adh
      let (s, adh) :=
        match r.holdersD with
        | none => (s, adh)
        | some h =>
          if h.total_holders > 100000 then (s - 1, adh + 2)
          else if h.total_holders > 50000 then (s - 1/2, adh + 1)
          else if h.total_holders < 1000 then (s + 2, adh - 2)
          else if h.total_holders < 5000 then (s + 1, adh - 1)
          else (s, adh)
      let (s, adh) :=
        match r.liqUsd with
        | none => (s, adh)
        | some liq =>
          if liq > 10000000 then (s - 1, adh + 2)
          else if liq > 1000000 then (s - 1/2, adh + 1)
          else if liq < 100000 then (s + 2, adh - 2)
          else if liq < 500000 then (s + 1, adh - 1)
          else (s, adh)
      let v := (cg.market_data.getD MarketData.empty).total_volume.getD 0
      let (s, adh) :=
        if v > 10000000 then (s - 1, adh + 2)
        else if v > 1000000 then (s, adh + 1)
        else if v < 10000 then (s + 1, adh - 1)
        else (s, adh)
      let mc := (cg.market_data.getD MarketData.empty).market_cap.getD 0
      let (s, adh) :=
        if mc > 1000000000 then (s - 1, adh + 2)
        else if mc > 100000000 then (s, adh + 1)
        else if mc < 1000000 then (s + 1, adh - 1)
        else (s, adh)
      (s, adh)
  let s :=
    if adh ≥ 6 then max 1 (s - 1)
    else if adh ≤ -4 then min 10 (s + 1)
    else s
  s

/-- The clamp of `score_roadmap_adherence`. -/
def score_roadmap_adherence (r : RiskReport) : ℚ :=
  clamp110 (score_roadmap_adherence_core r)

/-- Solidity patterns checked by `score_team_expertise`. -/
def EXPERTISE_PATTERNS : List String :=
  ["reentrancyguard", "pausable", "ownable", "accesscontrol",
   "multisig", "timelock", "governance", "dao"]

/-- `score_team_expertise` (lines 2566-2806). -/
def score_team_expertise_core (r : RiskReport) : ℚ :=
  let cg := r.cgD
  let links := cg.links
  let s : ℚ := 5
  let expertise : ℚ := 0
  let (s, df, expertise) :=
    if cg.team ≠ [] then
      let s := s - 2
      let expertise := expertise + 3
      let detailed := (cg.team.filter (·.named)).length
      if detailed ≥ 5 then (s - 2, true, expertise + 3)
      else if detailed ≥ 3 then (s - 1, true, expertise + 2)
      else if detailed = 0 then (s + 2, true, expertise - 2)
      else (s, true, expertise)
    else (s + 3, false, expertise - 3)
  let (s, df, expertise) :=
    if links.linkedin then (s - 1, true, expertise + 2) else (s, df, expertise - 1)
  let (s, df, expertise) :=
    if links.repos_url_github ≠ [] then (s - 1, true, expertise + 2)
    else (s, df, expertise - 1)
  let (s, df, expertise) :=
    if cg.company then (s - 1, true, expertise + 2) else (s, df, expertise - 1)
  let trust := cg.trust_score
  let (s, df, expertise) :=
    if trust > 9 then (s - 2, true, expertise + 3)
    else if trust > 7 then (s - 1, true, expertise + 2)
    else if trust < 3 then (s + 2, df, expertise - 2)
    else if trust < 5 then (s + 1, df, expertise - 1)
    else (s, df, expertise)
  let dev := cg.developer_score
  let (s, df, expertise) :=
    if dev > 80 then (s - 2, true, expertise + 3)
    else if dev > 50 then (s - 1, true, expertise + 2)
    else if dev < 10 then (s + 2, df, expertise - 2)
    else if dev < 30 then (s + 1, df, expertise - 1)
    else (s, df, expertise)
  let (s, expertise) :=
    if df then (s, expertise) else
      let (s, expertise) :=
        if r.contractVerifiedD = "verified" then (s - 1, expertise + 2)
        else (s, expertise - 1)
      let src := r.contractSourceD
      let (s, expertise) :=
        if src ≠ "" then
          let srcLower := src.pyLower
          let functionCount := countSubstr srcLower "function "
          let (s, expertise) :=
            if functionCount > 30 then (s - 2, expertise + 3)
            else if functionCount > 15 then (s - 1, expertise + 2)
            else if functionCount < 3 then (s + 2, expertise - 2)
            else if functionCount < 8 then (s + 1, expertise - 1)
            else (s, expertise)
          let patternCount := (EXPERTISE_PATTERNS.filter (fun p => strContains srcLower p)).length
          if patternCount ≥ 3 then (s - 1, expertise + 2)
          else if patternCount = 0 then (s + 1, expertise - 1)
          else (s, expertise)
        else (s, expertise)
      let (s, expertise) :=
        match r.liqUsd with
        | none => (s, expertise)
        | some liq =>
          if liq > 10000000 then (s - 2, expertise + 3)
          else if liq > 1000000 then (s - 1, expertise + 2)
          else if liq < 10000 then (s + 2, expertise - 2)
          else if liq < 100000 then (s + 1, expertise - 1)
          else (s, expertise)
      let pc := (cg.market_data.getD MarketData.empty).price_change_percentage_24h
      let (s, expertise) :=
        if pc ≠ 0 && |pc| < 10 then (s - 2, expertise + 3)
        else if pc ≠ 0 && |pc| < 20 then (s - 1, expertise + 2)
        else if pc ≠ 0 && |pc| > 50 then (s + 2, expertise - 2)
        else if pc ≠ 0 && |pc| > 30 then (s + 1, expertise - 1)
        else (s, expertise)
      let expertise :=
        match r.metadataD with
        | none => expertise
        | some md =>
          let expertise :=
            if md.has_name && md.has_symbol && md.has_decimals then expertise + 1 else expertise
          if md.description ≠ "" && md.description.pyLen > 100 then expertise + 1 else expertise
      let (s, expertise) := if r.dlYields then (s - 1, expertise + 2) else (s, expertise)
      let expertise := if r.dlPrice then expertise + 1 else expertise
      let (s, expertise) :=
        match r.holdersD with
        | none => (s, expertise)
        | some h =>
          if h.total_holders > 100000 then (s - 1, expertise + 2)
          else if h.total_holders > 50000 then (s, expertise + 1)
          else if h.total_holders < 1000 then (s + 1, expertise - 1)
          else (s, expertise)
      let mc := (cg.market_data.getD MarketData.empty).market_cap.getD 0
      let (s, expertise) :=
        if mc > 1000000000 then (s - 1, expertise + 2)
        else if mc > 100000000 then (s, expertise + 1)
        else if mc < 1000000 then (s + 1, expertise - 1)
        else (s, expertise)
      (s, expertise)
  let s :=
    if expertise ≥ 8 then max 1 (s - 2)
    else if expertise ≥ 5 then max 1 (s - 1)
    else if expertise ≤ -6 then min 10 (s + 2)
    else if expertise ≤ -3 then min 10 (s + 1)
    else s
  s

/-- The clamp of `score_team_expertise`. -/
def score_team_expertise (r : RiskReport) : ℚ :=
  clamp110 (score_team_expertise_core r)

/-- `score_management_strategy` (lines 2808-2927). -/
def score_management_strategy_core (r : RiskReport) : ℚ :=
  let cg := r.cgD
  let links := cg.links
  let s : ℚ := 5
  let (s, df) :=
    if links.governance || strContains cg.description_en.pyLower "dao" then (s - 1, true)
    else (s, false)
  let (s, df) := if links.community || links.forum then (s - 1, true) else (s, df)
  let (s, df) := if links.blog || links.announcement then (s - 1, true) else (s, df)
  let (s, df) := if links.linkedin || cg.company then (s - 1, true) else (s, df)
  let (s, df) :=
    match r.holdersD with
    | none => (s, df)
    | some h =>
      let th := h.total_holders
      let conc := h.top10_concentration
      if th > 10000 && conc < 50 then (s - 1, true)
      else if th < 1000 || conc > 80 then (s + 2, df)
      else (s, df)
  let v := (cg.market_data.getD MarketData.empty).total_volume.getD 0
  let mc := (cg.market_data.getD MarketData.empty).market_cap.getD 0
  let (s, df) :=
    if v > 0 && mc > 0 then
      let ratio := v / mc
      if ratio > 1/10 then (s - 1, true)
      else if ratio < 1/100 then (s + 1, df)
      else (s, df)
    else (s, df)
  let (s, df) :=
    match r.liqUsd with
    | none => (s, df)
    | some liq =>
      if liq > 1000000 then (s - 1, true)
      else if liq < 100000 then (s + 1, df)
      else (s, df)
  let s :=
    if df then s else
      let s :=
        match r.enhanced.zapper with
        | none => s
        | some z => if z.portfolio || z.protocol then s - 1 else s
      let s :=
        match r.enhanced.debank with
        | none => s
        | some d => if d.portfolio || d.tokens then s - 1 else s
      let s :=
        let transfers := r.transfersD
        if transfers ≠ [] then
          let large := (transfers.filter (fun t => t.value.getD 0 > 10000)).length
          if large > 5 then s - 1
          else if large = 0 then s + 1
          else s
        else s
      let src := r.contractSourceD
      let s :=
        if src ≠ "" then
          let srcLower := src.pyLower
          let govCount :=
            ((["vote", "proposal", "governance", "dao"] : List String).filter
              (fun p => strContains srcLower p)).length
          if govCount ≥ 2 then s - 1 else s
        else s
      s
  s

/-- The clamp of `score_management_strategy`. -/
def score_management_strategy (r : RiskReport) : ℚ :=
  clamp110 (score_management_strategy_core r)

/-- Security patterns checked by `score_code_security`. -/
def SECURITY_PATTERNS : List String :=
  ["reentrancyguard", "pausable", "ownable", "accesscontrol",
   "safemath", "erc20", "erc721", "erc1155"]

/-- Vulnerability patterns checked by `score_code_security`. -/
def VULNERABILITY_PATTERNS : List String :=
  ["delegatecall", "selfdestruct", "suicide", "assembly",
   "inline", "low-level", "unchecked"]

/-- `score_code_security` (lines 2929-3035).  When `risk_report['security']`
holds a non-empty list (the shape the pipeline stores), the dict access
`security_data.get('audits', [])` raises and the outer handler returns 7. -/
def score_code_security_core (r : RiskReport) (sec : SecurityField) : ℚ :=
  let s : ℚ := 5
  let (s, df) :=
    if r.contractVerifiedD = "verified" then (s - 2, true) else (s + 3, false)
  let (s, df) :=
    match sec with
    | .dct audits _ =>
      if audits ≥ 2 then (s - 2, true)
      else if audits = 1 then (s - 1, true)
      else (s + 2, df)
    | _ => (s, df)
  let src := r.contractSourceD
  let (s, df) :=
    if src ≠ "" then
      let srcLower := src.pyLower
      let secCount := (SECURITY_PATTERNS.filter (fun p => strContains srcLower p)).length
      let (s, df) :=
        if secCount ≥ 3 then (s - 1, true)
        else if secCount = 0 then (s + 1, df)
        else (s, df)
      let vulnCount := (VULNERABILITY_PATTERNS.filter (fun p => strContains srcLower p)).length
      if vulnCount ≥ 2 then (s + 1, df) else (s, df)
    else (s, df)
  let s :=
    if df then s else
      let s :=
        match sec with
        | .dct _ reports => if reports then s - 1 else s
        | _ => s
      let s :=
        match r.metadataD with
        | none => s
        | some md =>
          let tl := md.mtype.pyLower
          if strContains tl "erc20" || strContains tl "erc721" then s - 1 else s
      let s :=
        let transfers := r.transfersD
        if transfers ≠ [] then
          let suspicious := (transfers.filter (fun t => t.value.getD 0 > 1000000)).length
          if suspicious > 10 then s + 1 else s
        else s
      let s :=
        match r.holdersD with
        | none => s
        | some h => if h.top10_concentration > 90 then s + 1 else s
      let s :=
        match r.liqUsd with
        | none => s
        | some liq => if liq < 50000 then s + 1 else s
      s
  s

/-- The outer structure of `score_code_security`: a truthy list under
`'security'` raises in the dict access and scores 7, otherwise the body
result is clamped. -/
def score_code_security (r : RiskReport) : ℚ :=
  match r.security with
  | .lst (_ :: _) => 7
  | sec => clamp110 (score_code_security_core r sec)

/-- `score_dev_activity` (lines 3037-3187).  The state is
`(score, data_found, indicator count)`: the function appends a human-readable
indicator string at every signal, and the Moralis fallback fires when
`not data_found or len(activity_indicators) < 2`, so the count matters.
When CoinGecko has no `github` metrics dict but does have a GitHub repo URL
list, `github_metrics` becomes that list and the later
`github_metrics.get(metric)` raises, so the outer handler returns 7. -/
def score_dev_activity_core (r : RiskReport) : ℚ :=
  let cg := r.cgD
  let links := cg.links
  let s : ℚ := 5
  let (s, df, ind) :=
    let sd := r.santiment.dev
    if sd ≠ [] then
      let valid := sd.filterMap id
      if valid ≠ [] then
        let avg : ℚ := valid.sum / valid.length
        let recent : ℚ := (valid.getLast?).getD 0
        let (s, df, ind) :=
          if avg > 150 && recent > 75 then (s - 3, true, (1 : Nat))
          else if avg > 100 && recent > 50 then (s - 2, true, 1)
          else if avg > 50 && recent > 20 then (s - 1, true, 1)
          else if avg < 5 || recent < 2 then (s + 3, false, 1)
          else if avg < 15 || recent < 8 then (s + 2, false, 1)
          else if avg < 30 then (s + 1, false, 1)
          else (s, false, 0)
        if avg ≠ 0 && recent < avg * (3/10) then (s + 1, df, ind + 1) else (s, df, ind)
      else (s, false, 0)
    else (s, false, 0)
  let devScore := cg.developer_score
  let (s, df, ind) :=
    if devScore > 80 then (s - 2, true, ind + 1)
    else if devScore > 50 then (s - 1, true, ind + 1)
    else if devScore < 5 then (s + 2, df, ind + 1)
    else if devScore < 15 then (s + 1, df, ind + 1)
    else (s, df, ind)
  let gm := cg.github.getD ⟨none, none, none, none, none⟩
  let metricStep := fun (val : Option ℚ) (boost penalty high low : ℚ)
      (st : ℚ × Bool × Nat) =>
    match val with
    | none => st
    | some v =>
      if v ≥ high then (st.1 + boost, true, st.2.2 + 1)
      else if v ≤ low then (st.1 + penalty, st.2.1, st.2.2 + 1)
      else st
  let st := metricStep gm.commit_count_4_weeks (-1) 1 50 5 (s, df, ind)
  let st := metricStep gm.stars (-1/2) (1/2) 1000 10 st
  let st := metricStep gm.forks (-1/2) (1/2) 500 5 st
  let st := metricStep gm.open_issues (1/2) (-1/2) 100 0 st
  let st := metricStep gm.contributors (-1) 1 20 1 st
  let (s, df, ind) := st
  let (s, df, ind) :=
    if links.repos_url_github ≠ [] then
      let (s, ind) := (s - 1, ind + 1)
      if links.source_code then (s - 1/2, true, ind + 1) else (s, true, ind)
    else (s, df, ind)
  let (s, ind) :=
    match r.onchain.bind (·.contract_age_days) with
    | none => (s, ind)
    | some a =>
      if a < 60 then (s - 1/2, ind + 1)
      else if a > 1000 then (s + 1/2, ind + 1)
      else (s, ind)
  let onchainProxy :=
    ((r.onchain.map (fun oc => oc.proxy_contract || oc.upgradeable_contract))).getD false
  let (s, ind) := if onchainProxy then (s - 1/2, ind + 1) else (s, ind)
  let (s, ind) :=
    if !df || ind < 2 then
      let transfers := r.transfersD
      if transfers ≠ [] then
        let recent := (transfers.filter (·.block_timestamp)).length
        let tvol : ℚ :=
          ((transfers.filter (fun t => t.value.getD 0 ≠ 0)).map (fun t => t.value.getD 0)).sum
        if recent > 100 && tvol > 1000000 then (s - 1, ind + 1)
        else if recent < 5 then (s + 1, ind + 1)
        else (s, ind)
      else (s, ind)
    else (s, ind)
  let integrations :=
    (if r.enhanced.zapper.isSome then 1 else 0) +
    (if r.enhanced.debank.isSome then 1 else 0) +
    (if r.enhanced.defillama.isSome then 1 else 0)
  let (s, df, _) :=
    if integrations > 0 then (s - 1, true, ind + 1) else (s + 1/2, df, ind + 1)
  let s := if !df then max s 7 else s
  s

/-- The outer structure of `score_dev_activity`: the list-shaped
`github_metrics` raise scores 7, otherwise the body result is rounded and
clamped to `[1,9]`. -/
def score_dev_activity (r : RiskReport) : ℚ :=
  if (r.cgD).github.isNone && (r.cgD).links.repos_url_github ≠ [] then 7
  else clampRound19 (score_dev_activity_core r)

/-- One security report as returned by `fetch_security_reports` and consumed
by `score_aml_data` (`report.get('source')`, `report.get('score')`,
`report.get('audit_status', '')`). -/
structure CertikReport where
  source : Option String
  score : Option ℚ
  audit_status : String
deriving DecidableEq, Repr

/-- `score_aml_data` (lines 3190-3234).  The external verdicts the function
fetches itself (`fetch_security_reports`, `fetch_scorechain_aml`,
`fetch_trmlabs_aml`) are parameters; `none` for the latter two models both a
`None` result and a raised-and-caught fetch.  There is no outer `try`: the
function starts at 10 and clamps with `max(1, min(9, round(score)))`. -/
def score_aml_data_core (certikReports : List CertikReport)
    (scorechain trmlabs : Option ℚ) : ℚ :=
  let s : ℚ := 10
  let s :=
    if certikReports ≠ [] then
      certikReports.foldl
        (fun s report =>
          if report.source = some "CertiK" then
            let cs := report.score
            let status := report.audit_status.pyLower
            if status = "audited" && (cs.getD 0 ≠ 0) && cs.getD 0 ≥ 80 then s - 3
            else if status = "audited" then s - 2
            else if status = "unaudited" || ((cs.getD 0 ≠ 0) && cs.getD 0 < 60) then s + 3
            else s
          else s) s
    else s
  let s := match scorechain with | none => s | some d => s + d
  let s := match trmlabs with | none => s | some d => s + d
  s

/-- The clamp of `score_aml_data`. -/
def score_aml_data (certikReports : List CertikReport)
    (scorechain trmlabs : Option ℚ) : ℚ :=
  clampRound19 (score_aml_data_core certikReports scorechain trmlabs)

/-- Keywords used by the KYC/AML language check of `score_compliance_data`. -/
def KYC_KEYWORDS : List String :=
  ["kyc", "aml", "compliant", "regulatory", "regulated", "license",
   "governance", "oversight", "audit", "transparency"]

/-- Exchange lists used by `score_compliance_data`. -/
def REGULATED_EXCHANGES : List String := ["coinbase", "kraken", "gemini"]

/-- Major exchanges used by `score_compliance_data`. -/
def MAJOR_EXCHANGES : List String :=
  ["binance", "coinbase", "kraken", "gemini", "bitfinex", "huobi"]

/-- Established platforms used by `score_compliance_data`. -/
def ESTABLISHED_PLATFORMS : List String :=
  ["ethereum", "binance-smart-chain", "polygon-pos", "avalanche", "solana"]

/-- The red flags `score_compliance_data` penalizes. -/
def CRITICAL_FLAGS : List String :=
  ["eu_unlicensed_stablecoin", "eu_regulatory_issues",
   "mica_non_compliant", "mica_no_whitepaper"]

/-- `score_compliance_data` (lines 3236-3411).  The OpenSanctions, Lukka,
Alchemy and DeFiSafety score deltas are fetch results passed as parameters
(`none` models no data or a raised-and-caught fetch).  When the record has a
present-but-empty `links.homepage` list, `links.get('homepage', [''])[0]`
raises `IndexError` and the outer handler returns 7. -/
def score_compliance_data_core (r : RiskReport)
    (openSanctions lukka alchemy defisafety : Option ℚ) : ℚ :=
  let cg := r.cgD
  let links := cg.links
  let s : ℚ := 5
  let (s, df) :=
    match r.breadcrumbs_risk with
    | none => (s, false)
    | some b =>
      if b.sanctions || b.illicit then (s + 4, true)
      else if b.riskScore ≥ 80 then (s + 2, true)
      else if b.riskScore ≥ 50 then (s + 1, true)
      else (s - 1, true)
  let foundRegulated := cg.tickers.any (fun t => t.market_name.pyLower ∈ REGULATED_EXCHANGES)
  let foundMajor := cg.tickers.any (fun t => t.market_name.pyLower ∈ MAJOR_EXCHANGES)
  let (s, df) :=
    if foundRegulated then (s - 2, true)
    else if foundMajor then (s - 1, true)
    else (s + 1, df)
  let descr := cg.description_en
  let website := (links.homepage.getD [""]).headD ""
  let kycMatches :=
    (KYC_KEYWORDS.filter
      (fun kw => strContains descr.pyLower kw || strContains website.pyLower kw)).length
  let (s, df) :=
    if kycMatches ≥ 2 then (s - 2, true)
    else if kycMatches = 1 then (s - 1, true)
    else (s + 1, df)
  let redFlags := ((r.onchain.map (·.red_flags))).getD []
  let s := CRITICAL_FLAGS.foldl (fun s f => if f ∈ redFlags then s + 3 else s) s
  let (s, df) := if cg.company then (s - 1, true) else (s, df)
  let legalPresence : Nat :=
    (if links.linkedin then 1 else 0) + (if links.legal then 1 else 0) +
    (if links.whitepaper then 1 else 0)
  let (s, df) :=
    if legalPresence ≥ 2 then (s - 1, true)
    else if legalPresence = 1 then (s - 1/2, true)
    else (s + 1/2, df)
  let platform := cg.asset_platform_id
  let (s, df) :=
    if platform ∈ ESTABLISHED_PLATFORMS then (s - 1/2, true)
    else if platform = "unknown" || platform = "" then (s + 1, df)
    else (s, df)
  let (s, df) :=
    match r.liqUsd with
    | none => (s, df)
    | some liq =>
      if liq > 100000000 then (s - 1, true)
      else if liq > 10000000 then (s - 1/2, true)
      else if liq < 10000 then (s + 1, df)
      else if liq < 100000 then (s + 1/2, df)
      else (s, df)
  let s := match openSanctions with | none => s | some d => s + d
  let s := match lukka with | none => s | some d => s + d
  let s := match alchemy with | none => s | some d => s + d
  let s := match defisafety with | none => s | some d => s + d
  let s := if !df then max s 7 else s
  s

/-- The outer structure of `score_compliance_data`: the present-but-empty
homepage list raise scores 7, otherwise the body result is rounded and
clamped to `[1,9]`. -/
def score_compliance_data (r : RiskReport)
    (openSanctions lukka alchemy defisafety : Option ℚ) : ℚ :=
  if (r.cgD).links.homepage = some [] then 7
  else clampRound19 (score_compliance_data_core r openSanctions lukka alchemy defisafety)

/-- `score_marketing_demand` (lines 3413-3533). -/
def score_marketing_demand_core (r : RiskReport) : ℚ :=
  let cg := r.cgD
  let links := cg.links
  let s : ℚ := 5
  let (s, df) :=
    let ss := r.santiment.social
    if ss ≠ [] then
      let valid := ss.filterMap id
      if valid ≠ [] then
        let avg : ℚ := valid.sum / valid.length
        let recent : ℚ := (valid.getLast?).getD 0
        if avg > 10000 && recent > 5000 then (s - 2, true)
        else if avg > 1000 && recent > 500 then (s - 1, true)
        else if avg < 100 || recent < 50 then (s + 2, false)
        else if avg < 500 then (s + 1, false)
        else (s, false)
      else (s, false)
    else (s, false)
  let socialPresence : Nat :=
    (if links.twitter_screen_name then 1 else 0) +
    (if links.telegram_channel_identifier then 1 else 0) +
    (if links.subreddit_url then 1 else 0) +
    (if links.discord then 1 else 0) +
    (if links.medium then 1 else 0) +
    (if links.reddit then 1 else 0)
  let (s, df) :=
    if socialPresence ≥ 3 then (s - 1, true)
    else if socialPresence = 0 then (s + 2, df)
    else if socialPresence = 1 then (s + 1, df)
    else (s, df)
  let v := (cg.market_data.getD MarketData.empty).total_volume.getD 0
  let (s, df) :=
    if v > 10000000 then (s - 2, true)
    else if v > 1000000 then (s - 1, true)
    else if v < 10000 then (s + 2, df)
    else if v < 100000 then (s + 1, df)
    else (s, df)
  let pc := (cg.market_data.getD MarketData.empty).price_change_percentage_24h
  let (s, df) :=
    if pc ≠ 0 && pc > 20 then (s - 1, true)
    else if pc ≠ 0 && pc < -20 then (s + 1, df)
    else (s, df)
  let s :=
    if df then s else
      let s :=
        let transfers := r.transfersD
        if transfers ≠ [] then
          if transfers.length > 100 then s - 1
          else if transfers.length < 10 then s + 1
          else s
        else s
      let s :=
        match r.holdersD with
        | none => s
        | some h =>
          if h.total_holders > 50000 then s - 2
          else if h.total_holders > 10000 then s - 1
          else if h.total_holders < 1000 then s + 1
          else s
      let s :=
        match r.liqUsd with
        | none => s
        | some liq =>
          if liq > 5000000 then s - 1
          else if liq < 100000 then s + 1
          else s
      let s := if r.dlPrice || r.dlYields then s - 1 else s
      s
  s

/-- The clamp of `score_marketing_demand`. -/
def score_marketing_demand (r : RiskReport) : ℚ :=
  clamp110 (score_marketing_demand_core r)

/-- Environmental keywords of `score_esg_impact`. -/
def ENVIRONMENTAL_KEYWORDS : List String :=
  ["carbon", "green", "sustainable", "renewable", "energy", "climate",
   "environmental", "eco", "clean", "zero-emission", "carbon-neutral",
   "solar", "wind", "hydro", "geothermal", "biomass", "recycling"]

/-- Social keywords of `score_esg_impact`. -/
def SOCIAL_KEYWORDS : List String :=
  ["social", "community", "inclusive", "equality", "diversity",
   "education", "healthcare", "charity", "donation", "philanthropy",
   "microfinance", "banking", "financial inclusion", "unbanked",
   "developing", "emerging markets", "accessibility"]

/-- Governance keywords of `score_esg_impact`. -/
def GOVERNANCE_KEYWORDS : List String :=
  ["governance", "dao", "democratic", "transparent", "accountable",
   "voting", "proposal", "community-driven", "decentralized",
   "open source", "audit", "compliance", "regulation", "legal"]

/-- Governance functions checked in the `score_esg_impact` fallback. -/
def ESG_GOVERNANCE_FUNCTIONS : List String :=
  ["vote", "proposal", "governance", "dao", "multisig",
   "timelock", "accesscontrol", "ownable"]

/-- Transparency features checked in the `score_esg_impact` fallback. -/
def TRANSPARENCY_FEATURES : List String :=
  ["public", "view", "external", "event", "emit"]

/-- `score_esg_impact` (lines 3535-3786).  Unlike the other fourteen
functions, its outer handler returns 5, but no modelled access can raise,
so that handler is unreachable on `RiskReport`. -/
def score_esg_impact_core (r : RiskReport) : ℚ :=
  let cg := r.cgD
  let descLower := cg.description_en.pyLower
  let s : ℚ := 5
  let esg : ℚ := 0
  let envCount := (ENVIRONMENTAL_KEYWORDS.filter (fun k => strContains descLower k)).length
  let (s, df, esg) :=
    if envCount ≥ 3 then (s - 2, true, esg + 3)
    else if envCount ≥ 2 then (s - 1, true, esg + 2)
    else if envCount ≥ 1 then (s, false, esg + 1)
    else (s + 1, false, esg - 1)
  let socialCount := (SOCIAL_KEYWORDS.filter (fun k => strContains descLower k)).length
  let (s, df, esg) :=
    if socialCount ≥ 3 then (s - 2, true, esg + 3)
    else if socialCount ≥ 2 then (s - 1, true, esg + 2)
    else if socialCount ≥ 1 then (s, df, esg + 1)
    else (s + 1, df, esg - 1)
  let govCount := (GOVERNANCE_KEYWORDS.filter (fun k => strContains descLower k)).length
  let (s, df, esg) :=
    if govCount ≥ 3 then (s - 2, true, esg + 3)
    else if govCount ≥ 2 then (s - 1, true, esg + 2)
    else if govCount ≥ 1 then (s, df, esg + 1)
    else (s + 1, df, esg - 1)
  let cs := cg.community_score
  let (s, df, esg) :=
    if cs > 80 then (s - 1, true, esg + 2)
    else if cs > 50 then (s - 1/2, true, esg + 1)
    else if cs < 10 then (s + 1, df, esg - 1)
    else (s, df, esg)
  let ds := cg.developer_score
  let (s, df, esg) :=
    if ds > 80 then (s - 1, true, esg + 2)
    else if ds > 50 then (s - 1/2, true, esg + 1)
    else if ds < 10 then (s + 1, df, esg - 1)
    else (s, df, esg)
  let (s, esg) :=
    if df then (s, esg) else
      let (s, esg) :=
        if r.contractVerifiedD = "verified" then (s - 1, esg + 2) else (s, esg - 1)
      let src := r.contractSourceD
      let (s, esg) :=
        if src ≠ "" then
          let srcLower := src.pyLower
          let govFuncCount :=
            (ESG_GOVERNANCE_FUNCTIONS.filter (fun p => strContains srcLower p)).length
          let (s, esg) :=
            if govFuncCount ≥ 2 then (s - 1, esg + 2)
            else if govFuncCount ≥ 1 then (s, esg + 1)
            else (s + 1, esg - 1)
          let transCount :=
            (TRANSPARENCY_FEATURES.filter (fun p => strContains srcLower p)).length
          if transCount ≥ 5 then (s - 1, esg + 2)
          else if transCount ≥ 3 then (s, esg + 1)
          else (s + 1, esg - 1)
        else (s, esg)
      let (s, esg) :=
        match r.holdersD with
        | none => (s, esg)
        | some h =>
          let th := h.total_holders
          let conc := h.top10_concentration
          if th > 100000 && conc < 30 then (s - 2, esg + 3)
          else if th > 50000 && conc < 50 then (s - 1, esg + 2)
          else if th > 10000 then (s, esg + 1)
          else if th < 1000 || conc > 80 then (s + 2, esg - 2)
          else if th < 5000 || conc > 60 then (s + 1, esg - 1)
          else (s, esg)
      let (s, esg) :=
        match r.liqUsd with
        | none => (s, esg)
        | some liq =>
          if liq > 10000000 then (s - 1, esg + 2)
          else if liq > 1000000 then (s, esg + 1)
          else if liq < 100000 then (s + 1, esg - 1)
          else (s, esg)
      let mc := (cg.market_data.getD MarketData.empty).market_cap.getD 0
      let (s, esg) :=
        if mc > 1000000000 then (s - 1, esg + 2)
        else if mc > 100000000 then (s, esg + 1)
        else if mc < 1000000 then (s + 1, esg - 1)
        else (s, esg)
      let esg :=
        match r.metadataD with
        | none => esg
        | some md =>
          let esg :=
            if md.has_name && md.has_symbol && md.has_decimals then esg + 1 else esg
          if md.description ≠ "" && md.description.pyLen > 100 then esg + 1 else esg
      let esg := if r.dlYields || r.dlPrice then esg + 1 else esg
      let links := cg.links
      let profCount : Nat :=
        (if links.linkedin then 1 else 0) + (if links.medium then 1 else 0) +
        (if links.blog then 1 else 0) + (if links.docs then 1 else 0) +
        (if links.documentation then 1 else 0)
      let (s, esg) :=
        if profCount ≥ 2 then (s - 1, esg + 2)
        else if profCount ≥ 1 then (s, esg + 1)
        else (s + 1, esg - 1)
      (s, esg)
  let s :=
    if esg ≥ 8 then max 1 (s - 2)
    else if esg ≥ 5 then max 1 (s - 1)
    else if esg ≤ -6 then min 10 (s + 2)
    else if esg ≤ -3 then min 10 (s + 1)
    else s
  s

/-- The clamp of `score_esg_impact`. -/
def score_esg_impact (r : RiskReport) : ℚ :=
  clamp110 (score_esg_impact_core r)

/-- Business-model keywords of `score_business_model`. -/
def BUSINESS_KEYWORDS : List String :=
  ["utility", "governance", "staking", "yield", "lending", "swap", "amm", "dex"]

/-- Business functions checked in the `score_business_model` fallback. -/
def BUSINESS_FUNCTIONS : List String :=
  ["stake", "yield", "lend", "borrow", "swap", "govern"]

/-- `score_business_model` (lines 4222-4275). -/
def score_business_model_core (r : RiskReport) : ℚ :=
  let cg := r.cgD
  let descLower := cg.description_en.pyLower
  let s : ℚ := 5
  let modelCount := (BUSINESS_KEYWORDS.filter (fun k => strContains descLower k)).length
  let (s, df) :=
    if modelCount ≥ 2 then (s - 1, true)
    else if modelCount = 0 then (s + 1, false)
    else (s, false)
  let s :=
    if df then s else
      let s := if r.dlYields then s - 1 else s
      let src := r.contractSourceD
      let s :=
        if src ≠ "" then
          let srcLower := src.pyLower
          let funcCount := (BUSINESS_FUNCTIONS.filter (fun p => strContains srcLower p)).length
          if funcCount ≥ 2 then s - 1 else s
        else s
      let mc := (cg.market_data.getD MarketData.empty).market_cap.getD 0
      let s :=
        if mc > 10000000 then s - 1
        else if mc < 100000 then s + 1
        else s
      s
  s

/-- The clamp of `score_business_model`. -/
def score_business_model (r : RiskReport) : ℚ :=
  clamp110 (score_business_model_core r)

/-- `score_global_reach` (lines 4277-4344). -/
def score_global_reach_core (r : RiskReport) : ℚ :=
  let cg := r.cgD
  let s : ℚ := 5
  let (s, df) :=
    if cg.tickers ≠ [] then
      let unique := countDistinct (cg.tickers.map (·.market_name))
      if unique ≥ 5 then (s - 2, true)
      else if unique ≥ 3 then (s - 1, true)
      else if unique = 1 then (s + 1, false)
      else if unique = 0 then (s + 2, false)
      else (s, false)
    else (s, false)
  let s :=
    if df then s else
      let s :=
        match r.holdersD with
        | none => s
        | some h =>
          if h.total_holders > 100000 then s - 2
          else if h.total_holders > 20000 then s - 1
          else if h.total_holders < 1000 then s + 1
          else s
      let v := (cg.market_data.getD MarketData.empty).total_volume.getD 0
      let s :=
        if v > 5000000 then s - 1
        else if v < 10000 then s + 1
        else s
      let s :=
        let transfers := r.transfersD
        if transfers ≠ [] then
          let ua := countDistinct (transfers.map (·.from_address))
          if ua > 50 then s - 1
          else if ua < 10 then s + 1
          else s
        else s
      s
  s

/-- The clamp of `score_global_reach`. -/
def score_global_reach (r : RiskReport) : ℚ :=
  clamp110 (score_global_reach_core r)

/-- `score_market_dynamics` (lines 4346-4426). -/
def score_market_dynamics_core (r : RiskReport) : ℚ :=
  let cg := r.cgD
  let s : ℚ := 5
  let pc := (cg.market_data.getD MarketData.empty).price_change_percentage_24h
  let (s, df) :=
    if pc ≠ 0 then
      if |pc| < 10 then (s - 1, true)
      else if |pc| > 50 then (s + 2, false)
      else if |pc| > 20 then (s + 1, false)
      else (s, false)
    else (s, false)
  let v := (cg.market_data.getD MarketData.empty).total_volume.getD 0
  let mc := (cg.market_data.getD MarketData.empty).market_cap.getD 0
  let (s, df) :=
    if v > 0 && mc > 0 then
      let ratio := v / mc
      if ratio > 1/2 then (s + 1, df)
      else if ratio < 1/100 then (s + 1, df)
      else if 1/100 ≤ ratio && ratio ≤ 1/10 then (s - 1, true)
      else (s, df)
    else (s, df)
  let s :=
    if df then s else
      let s :=
        let transfers := r.transfersD
        if transfers ≠ [] then
          if transfers.length > 200 then s + 1
          else if transfers.length < 10 then s + 1
          else if 20 ≤ transfers.length && transfers.length ≤ 100 then s - 1
          else s
        else s
      let s :=
        match r.liqUsd with
        | none => s
        | some liq =>
          if liq > 10000000 then s - 1
          else if liq < 100000 then s + 1
          else s
      let s :=
        match r.holdersD with
        | none => s
        | some h =>
          if h.top10_concentration > 80 then s + 1
          else if h.top10_concentration < 30 then s - 1
          else s
      s
  s

/-- The clamp of `score_market_dynamics`. -/
def score_market_dynamics (r : RiskReport) : ℚ :=
  clamp110 (score_market_dynamics_core r)

/-- `self.RED_FLAGS` (lines 634-647): flag name and risk boost, in source
order. -/
def RED_FLAGS : List (String × ℚ) :=
  [("is_proxy_contract", 20),
   ("has_honeypot_pattern", 30),
   ("owner_change_last_24h", 15),
   ("lp_lock_expiring_soon", 25),
   ("unverified_contract", 15),
   ("low_liquidity", 12),
   ("high_concentration", 15),
   ("eu_unlicensed_stablecoin", 50),
   ("eu_regulatory_issues", 40),
   ("mica_non_compliant", 35),
   ("mica_no_whitepaper", 0)]

/-- `self.WEIGHTS` (lines 650-666): the 15 component weights, in source
order. -/
def WEIGHTS : List (String × ℚ) :=
  [("industry_impact", 9/100),
   ("tech_innovation", 9/100),
   ("whitepaper_quality", 7/100),
   ("roadmap_adherence", 7/100),
   ("business_model", 9/100),
   ("team_expertise", 8/100),
   ("management_strategy", 7/100),
   ("global_reach", 5/100),
   ("code_security", 8/100),
   ("dev_activity", 7/100),
   ("aml_data", 5/100),
   ("compliance_data", 5/100),
   ("market_dynamics", 5/100),
   ("marketing_demand", 6/100),
   ("esg_impact", 2/100)]

/-- The 15 component names, in `WEIGHTS` order. -/
def COMPONENT_NAMES : List String := WEIGHTS.map Prod.fst

/-- The weighted raw score of `assess_token` lines 1895-1897:
`total += component_scores[c] * weight * 10` over all 15 components. -/
def weightedRaw (scores : String → ℚ) : ℚ :=
  (WEIGHTS.map (fun p => scores p.1 * p.2 * 10)).sum

/-- `next((f['risk_boost'] for f in self.RED_FLAGS if f['check'] == flag), 0)`
(lines 1899-1902): the boost of a flag name, `0` when the name is not in
the table. -/
def boostOf (flag : String) : ℚ :=
  ((RED_FLAGS.find? (fun p => p.1 = flag)).map Prod.snd).getD 0

/-- The flag-boost loop of lines 1898-1904: each list occurrence of a flag
adds its boost. -/
def totalBoost (flags : List String) : ℚ :=
  (flags.map boostOf).sum

/-- Lines 1895-1905 of `assess_token`: weighted sum, plus one boost per
red-flag list entry, clamped by `min(150, max(0, total))`. -/
def finalRiskScore (scores : String → ℚ) (flags : List String) : ℚ :=
  min 150 (max 0 (weightedRaw scores + totalBoost flags))

/-- `classify_risk` (lines 4162-4220).  The argument models
`risk_report.get('onchain', {}).get('red_flags', [])` of the passed report;
`none` models a falsy `risk_report` (the `if risk_report:` guard). -/
def classify_risk (score : ℚ) (redFlags : Option (List String)) : String :=
  match redFlags with
  | some flags =>
    if "eu_unlicensed_stablecoin" ∈ flags then "Extreme Risk"
    else if "eu_regulatory_issues" ∈ flags then "Extreme Risk"
    else if "mica_non_compliant" ∈ flags then "Extreme Risk"
    else if score ≤ 50 then "Low Risk"
    else if score ≤ 100 then "Medium Risk"
    else if score ≤ 120 then "High Risk"
    else "Extreme Risk"
  | none =>
    if score ≤ 50 then "Low Risk"
    else if score ≤ 100 then "Medium Risk"
    else if score ≤ 120 then "High Risk"
    else "Extreme Risk"

/-- The proxy substrings of `detect_red_flags` line 1750, verbatim
(`'upgradeTo'` is matched against the lower-cased source and hence can never
hit, faithfully to the code). -/
def PROXY_PATTERNS : List String :=
  ["delegatecall", "proxy", "implementation", "upgradeTo", "call.value"]

/-- `detect_red_flags` (lines 1672-1757), as a function of the fetched
per-token facts.  `chainSupported` is `chain in self.CHAIN_CONFIG`,
`wellKnown` is `token_address.lower() in self.well_known_tokens`,
`minLiquidity` the chain's configured minimum, `contractAgeDays`/`volume24h`
the values the explorer/CoinGecko lookups produce (`none`/`0` when those
fetches fail), and `sourceCode` the explorer source listing (`none` when
unavailable).  Exception paths can only truncate the returned list, never
extend it. -/
def detect_red_flags (chainSupported wellKnown : Bool) (minLiquidity liquidity : ℚ)
    (holders : HolderData) (contractVerified : String) (contractAgeDays : Option Int)
    (volume24h : ℚ) (sourceCode : Option String) : List String :=
  if !chainSupported then []
  else
    let flags : List String :=
      if !wellKnown && liquidity > 0 && liquidity < minLiquidity then ["low_liquidity"] else []
    let flags :=
      if !wellKnown && holders.total_holders > 0 &&
          (holders.top10_concentration > 80 || holders.total_holders < 1000) then
        flags ++ ["high_concentration"]
      else flags
    let flags :=
      if !wellKnown && contractVerified ≠ "verified" &&
          ((match contractAgeDays with | some d => decide (d < 90) | none => false) ||
            volume24h < 50000) then
        flags ++ ["unverified_contract"]
      else flags
    match sourceCode with
    | none => flags
    | some src =>
      if PROXY_PATTERNS.any (fun p => strContains src.pyLower p) then
        flags ++ ["is_proxy_contract"]
      else flags

/-- The unlicensed-stablecoin address list of `apply_eu_regulatory_checks`
(lines 3886-3927). -/
def UNLICENSED_STABLECOIN_ADDRS : List String :=
  ["0xdac17f958d2ee523a2206206994597c13d831ec7",
   "0xa0b86a33e6441b8c4c8c0b8c4c8c0b8c4c8c0b8c",
   "0x6b175474e89094c44da98b954eedeac495271d0f",
   "0x4fabb145d64652a948d72533023f6e7a623c7c53",
   "0x853d955acef822db058eb8505911ed77f175b99e"]

/-- The symbol list of the secondary stablecoin check (line 3945). -/
def MAJOR_UNLICENSED_SYMBOLS : List String := ["USDT", "USDC", "DAI", "BUSD", "FRAX"]

/-- The EU regulatory-issue address list (lines 3960-3974). -/
def EU_REGULATORY_ISSUE_ADDRS : List String :=
  ["0x1f9840a85d5af5bf1d1762f925bdaddc4201f984",
   "0x6b3595068778dd592e39a122f4f5a5cf09c90fe2"]

/-- Stablecoin indicator substrings of `assess_mica_compliance` (lines
4011-4014). -/
def STABLECOIN_INDICATORS : List String :=
  ["stablecoin", "stable", "usd", "eur", "gbp", "jpy", "chf",
   "tether", "usdc", "dai", "busd", "frax", "gusd", "husd"]

/-- EU-establishment indicator substrings of `check_eu_establishment`. -/
def EU_ESTABLISHMENT_INDICATORS : List String :=
  ["european union", "eu", "europe", "germany", "france", "italy",
   "spain", "netherlands", "belgium", "luxembourg", "ireland",
   "malta", "cyprus", "estonia", "lithuania", "latvia"]

/-- MiCA authorization indicator substrings of `check_mica_authorization`. -/
def MICA_AUTH_INDICATORS : List String :=
  ["mica", "mica compliant", "eu authorized", "eu licensed",
   "regulated", "authorization", "license", "compliance"]

/-- `if flag not in flags: flags.append(flag)`. -/
def addFlagIfAbsent (flags : List String) (f : String) : List String :=
  if f ∈ flags then flags else flags ++ [f]

/-- `apply_eu_regulatory_checks` together with `assess_mica_compliance`
(lines 3845-4065), restricted to its effect on the red-flag list (the
`eu_compliance` status dict it also writes carries no score/category
weight).  `tokenAddrLower` is `risk_report.get('token', '').lower()`,
`symbolUpper` is `risk_report.get('symbol', '').upper()`, `description` the
CoinGecko English description and `hasWhitepaper` the truthiness of
`links.whitepaper`. -/
def apply_eu_regulatory_checks (tokenAddrLower symbolUpper description : String)
    (hasWhitepaper : Bool) (flags : List String) : List String :=
  if tokenAddrLower ∈ UNLICENSED_STABLECOIN_ADDRS then
    addFlagIfAbsent flags "eu_unlicensed_stablecoin"
  else if symbolUpper ∈ MAJOR_UNLICENSED_SYMBOLS then
    addFlagIfAbsent flags "eu_unlicensed_stablecoin"
  else
    let flags :=
      if tokenAddrLower ∈ EU_REGULATORY_ISSUE_ADDRS then
        addFlagIfAbsent flags "eu_regulatory_issues"
      else flags
    let descLower := description.pyLower
    let symbolLower := symbolUpper.pyLower
    let isStable :=
      STABLECOIN_INDICATORS.any (fun i => strContains symbolLower i) ||
      STABLECOIN_INDICATORS.any (fun i => strContains descLower i)
    if isStable then
      if "eu_unlicensed_stablecoin" ∉ flags then
        let hasEstablishment := EU_ESTABLISHMENT_INDICATORS.any (fun i => strContains descLower i)
        let hasAuthorization := MICA_AUTH_INDICATORS.any (fun i => strContains descLower i)
        if !hasEstablishment || !hasAuthorization then flags ++ ["mica_non_compliant"]
        else flags
      else flags
    else
      if !hasWhitepaper then flags ++ ["mica_no_whitepaper"] else flags

/-- `apply_strict_compliance_checks` (lines 3790-3843), restricted to its
red-flag effect.  After the EU pass it appends `low_liquidity`,
`unverified_contract` and `high_concentration` from the record's own
onchain fields with plain `.append` — no well-known exemption and no
membership check.  (`liquidity or 0` coincides with `liquidity` for every
number in the comparison.) -/
def apply_strict_compliance_checks (chainSupported : Bool) (minLiquidity : ℚ)
    (tokenAddrLower symbolUpper description : String) (hasWhitepaper : Bool)
    (liquidity : ℚ) (contractVerified : String) (holders : HolderData)
    (flags : List String) : List String :=
  if !chainSupported then flags
  else
    let flags := apply_eu_regulatory_checks tokenAddrLower symbolUpper description
      hasWhitepaper flags
    let flags := if liquidity < minLiquidity then flags ++ ["low_liquidity"] else flags
    let flags :=
      if contractVerified ≠ "verified" then flags ++ ["unverified_contract"] else flags
    if holders.top10_concentration > 50 || holders.total_holders < 1000 then
      flags ++ ["high_concentration"]
    else flags

/-- The red-flag list after both passes of one assessment: `detect_red_flags`
runs inside `fetch_onchain_data`, lines 1808-1814 merge its output into the
(initially empty) record flags through `list(set(existing + new))` —
modelled order-insensitively by `dedup` — and `apply_strict_compliance_checks`
then appends on top (line 1865). -/
def assessmentRedFlags (chainSupported wellKnown : Bool) (minLiquidity liquidity : ℚ)
    (holders : HolderData) (contractVerified : String) (contractAgeDays : Option Int)
    (volume24h : ℚ) (sourceCode : Option String)
    (tokenAddrLower symbolUpper description : String) (hasWhitepaper : Bool) :
    List String :=
  let fetched := detect_red_flags chainSupported wellKnown minLiquidity liquidity holders
    contractVerified contractAgeDays volume24h sourceCode
  let merged := (([] : List String) ++ fetched).dedup
  apply_strict_compliance_checks chainSupported minLiquidity tokenAddrLower symbolUpper
    description hasWhitepaper liquidity contractVerified holders merged

/-- The supported chains, the keys of `self.CHAIN_CONFIG` (lines 669-700). -/
def CHAIN_KEYS : List String := ["eth", "bsc", "uni"]

/-- The fields of the dict `assess_token` returns that the specification
talks about (`details` is projected to its `error` entry). -/
structure AssessResult where
  token : String
  chain : String
  risk_score : ℚ
  risk_category : String
  details_error : Option String
deriving DecidableEq, Repr

/-- The entry guard of `assess_token` (lines 1759-1769): lower-case the
chain and, when it is not a `CHAIN_CONFIG` key, return the maximal-risk
result at once.  `run` stands for the whole remaining body (data gathering,
flag detection, compliance, scoring, aggregation). -/
def assess_token_entry (tokenAddress chain : String)
    (run : String → AssessResult) : AssessResult :=
  let c := chain.pyLower
  if c ∈ CHAIN_KEYS then run c
  else
    { token := tokenAddress, chain := c, risk_score := 150,
      risk_category := "Extreme Risk",
      details_error := some ("Unsupported chain: " ++ c) }

/-- Lines 1879-1891: the per-component scoring loop.  `outcomes c` is the
result of calling `score_<c>`: `.ok v` a returned value, `.error e` an
exception, replaced by the default 7. -/
def componentScoreOf (outcomes : String → Except String ℚ) (c : String) : ℚ :=
  match outcomes c with
  | .ok v => v
  | .error _ => 7

/-- The component-score map built by the loop, one entry per `WEIGHTS` key. -/
def componentScores (outcomes : String → Except String ℚ) : List (String × ℚ) :=
  WEIGHTS.map (fun p => (p.1, componentScoreOf outcomes p.1))

/-- The outer `try` of `assess_token` (lines 1800-1932): a successful body
yields its result, any uncaught exception yields the catastrophic fallback
`{risk_score: 150, risk_category: 'Extreme Risk', details: {'error': str(e)}}`. -/
def assess_token_catch (tokenAddress chain : String)
    (body : Except String (ℚ × String)) : AssessResult :=
  match body with
  | .ok (sc, cat) =>
    { token := tokenAddress, chain := chain, risk_score := sc,
      risk_category := cat, details_error := none }
  | .error e =>
    { token := tokenAddress, chain := chain, risk_score := 150,
      risk_category := "Extreme Risk", details_error := some e }

/-! ## Shared helper lemmas -/

/-- `max(1, min(10, s))` always lands in `[1, 10]`. -/
theorem clamp110_mem (q : ℚ) : 1 ≤ clamp110 q ∧ clamp110 q ≤ 10 := by
  unfold clamp110
  exact ⟨le_max_left 1 _, max_le (by norm_num) (min_le_left 10 q)⟩

/-- `max(1, min(9, round(s)))` always lands in `[1, 10]` (in fact `[1, 9]`). -/
theorem clampRound19_mem (q : ℚ) : 1 ≤ clampRound19 q ∧ clampRound19 q ≤ 10 := by
  unfold clampRound19
  constructor
  · exact_mod_cast le_max_left (1 : ℤ) (min 9 (pyRound q))
  · have h : (max 1 (min 9 (pyRound q)) : ℤ) ≤ 9 :=
      max_le (by norm_num) (min_le_left _ _)
    have h2 : ((max 1 (min 9 (pyRound q)) : ℤ) : ℚ) ≤ (9 : ℚ) := by exact_mod_cast h
    linarith

/-- Range of `score_industry_impact`. -/
theorem score_industry_impact_range (r : RiskReport) :
    1 ≤ score_industry_impact r ∧ score_industry_impact r ≤ 10 :=
  clamp110_mem _

/-- Range of `score_tech_innovation`. -/
theorem score_tech_innovation_range (r : RiskReport) :
    1 ≤ score_tech_innovation r ∧ score_tech_innovation r ≤ 10 := by
  unfold score_tech_innovation
  split
  · norm_num
  · exact clamp110_mem _

/-- Range of `score_whitepaper_quality`. -/
theorem score_whitepaper_quality_range (r : RiskReport) :
    1 ≤ score_whitepaper_quality r ∧ score_whitepaper_quality r ≤ 10 :=
  clamp110_mem _

/-- Range of `score_roadmap_adherence`. -/
theorem score_roadmap_adherence_range (r : RiskReport) :
    1 ≤ score_roadmap_adherence r ∧ score_roadmap_adherence r ≤ 10 :=
  clamp110_mem _

/-- Range of `score_business_model`. -/
theorem score_business_model_range (r : RiskReport) :
    1 ≤ score_business_model r ∧ score_business_model r ≤ 10 :=
  clamp110_mem _

/-- Range of `score_team_expertise`. -/
theorem score_team_expertise_range (r : RiskReport) :
    1 ≤ score_team_expertise r ∧ score_team_expertise r ≤ 10 :=
  clamp110_mem _

/-- Range of `score_management_strategy`. -/
theorem score_management_strategy_range (r : RiskReport) :
    1 ≤ score_management_strategy r ∧ score_management_strategy r ≤ 10 :=
  clamp110_mem _

/-- Range of `score_global_reach`. -/
theorem score_global_reach_range (r : RiskReport) :
    1 ≤ score_global_reach r ∧ score_global_reach r ≤ 10 :=
  clamp110_mem _

/-- Range of `score_code_security`. -/
theorem score_code_security_range (r : RiskReport) :
    1 ≤ score_code_security r ∧ score_code_security r ≤ 10 := by
  unfold score_code_security
  split
  · norm_num
  · exact clamp110_mem _

/-- Range of `score_dev_activity`. -/
theorem score_dev_activity_range (r : RiskReport) :
    1 ≤ score_dev_activity r ∧ score_dev_activity r ≤ 10 := by
  unfold score_dev_activity
  split
  · norm_num
  · exact clampRound19_mem _

/-- Range of `score_aml_data`. -/
theorem score_aml_data_range (certikReports : List CertikReport)
    (scorechain trmlabs : Option ℚ) :
    1 ≤ score_aml_data certikReports scorechain trmlabs ∧
      score_aml_data certikReports scorechain trmlabs ≤ 10 :=
  clampRound19_mem _

/-- Range of `score_compliance_data`. -/
theorem score_compliance_data_range (r : RiskReport)
    (openSanctions lukka alchemy defisafety : Option ℚ) :
    1 ≤ score_compliance_data r openSanctions lukka alchemy defisafety ∧
      score_compliance_data r openSanctions lukka alchemy defisafety ≤ 10 := by
  unfold score_compliance_data
  split
  · norm_num
  · exact clampRound19_mem _

/-- Range of `score_market_dynamics`. -/
theorem score_market_dynamics_range (r : RiskReport) :
    1 ≤ score_market_dynamics r ∧ score_market_dynamics r ≤ 10 :=
  clamp110_mem _

/-- Range of `score_marketing_demand`. -/
theorem score_marketing_demand_range (r : RiskReport) :
    1 ≤ score_marketing_demand r ∧ score_marketing_demand r ≤ 10 :=
  clamp110_mem _

/-- Range of `score_esg_impact`. -/
theorem score_esg_impact_range (r : RiskReport) :
    1 ≤ score_esg_impact r ∧ score_esg_impact r ≤ 10 :=
  clamp110_mem _

/-- The clamp of `assess_token` lines 1895-1905 keeps the final score in
`[0, 150]` whatever the component scores and flags are. -/
theorem finalRiskScore_range (scores : String → ℚ) (flags : List String) :
    0 ≤ finalRiskScore scores flags ∧ finalRiskScore scores flags ≤ 150 := by
  unfold finalRiskScore
  exact ⟨le_min (by norm_num) (le_max_left 0 _), min_le_left _ _⟩

/-! ## Claims -/

unseal Rat.add Rat.sub Rat.mul Rat.inv in
/-- C1 (corrected).  The 15 `WEIGHTS` values sum to `0.99`, not `1.0`
(`0.27 + 0.28 + 0.16 + 0.20 + 0.06 + 0.02 = 0.99`), so for component scores
in `[1,10]` the weighted raw score `Σ componentScores[c] * weights[c] * 10`
lies in `[9.9, 148.5]`, not `[10, 150]`. -/
theorem weights_sum_and_raw_bounds :
    ((WEIGHTS.map Prod.snd).sum = 99/100) ∧
    (∀ scores : String → ℚ,
      (∀ c ∈ COMPONENT_NAMES, 1 ≤ scores c ∧ scores c ≤ 10) →
      99/10 ≤ weightedRaw scores ∧ weightedRaw scores ≤ 1485/10) := by
  constructor
  · decide
  · intro scores h
    obtain ⟨a1, b1⟩ := h "industry_impact" (by decide)
    obtain ⟨a2, b2⟩ := h "tech_innovation" (by decide)
    obtain ⟨a3, b3⟩ := h "whitepaper_quality" (by decide)
    obtain ⟨a4, b4⟩ := h "roadmap_adherence" (by decide)
    obtain ⟨a5, b5⟩ := h "business_model" (by decide)
    obtain ⟨a6, b6⟩ := h "team_expertise" (by decide)
    obtain ⟨a7, b7⟩ := h "management_strategy" (by decide)
    obtain ⟨a8, b8⟩ := h "global_reach" (by decide)
    obtain ⟨a9, b9⟩ := h "code_security" (by decide)
    obtain ⟨a10, b10⟩ := h "dev_activity" (by decide)
    obtain ⟨a11, b11⟩ := h "aml_data" (by decide)
    obtain ⟨a12, b12⟩ := h "compliance_data" (by decide)
    obtain ⟨a13, b13⟩ := h "market_dynamics" (by decide)
    obtain ⟨a14, b14⟩ := h "marketing_demand" (by decide)
    obtain ⟨a15, b15⟩ := h "esg_impact" (by decide)
    simp only [weightedRaw, WEIGHTS, List.map_cons, List.map_nil, List.sum_cons,
      List.sum_nil]
    constructor <;> linarith

/-- C1 witness: the constant score map 5 satisfies the bounds (its raw score
is `49.5`). -/
theorem weights_raw_bounds_witness :
    99/10 ≤ weightedRaw (fun _ => 5) ∧ weightedRaw (fun _ => 5) ≤ 1485/10 :=
  weights_sum_and_raw_bounds.2 (fun _ => 5) (fun _ _ => by norm_num)

unseal Rat.add Rat.sub Rat.mul Rat.inv in
/-- C1 counterexample: the weights sum to `99/100`, which is not `1`. -/
theorem weights_sum_cex :
    (WEIGHTS.map Prod.snd).sum = 99/100 ∧ (99/100 : ℚ) ≠ 1 := by
  constructor <;> decide

/-- C2 (confirmed).  `classify_risk`: any of `eu_unlicensed_stablecoin`,
`eu_regulatory_issues`, `mica_non_compliant` in the record's red flags
forces "Extreme Risk" regardless of the numeric score; otherwise (in
particular with only `mica_no_whitepaper` present) the category is
determined solely by the score: ≤50 Low, ≤100 Medium, ≤120 High, else
Extreme. -/
theorem classify_risk_override_precedence (score : ℚ) (rep : Option (List String)) :
    (("eu_unlicensed_stablecoin" ∈ rep.getD [] ∨ "eu_regulatory_issues" ∈ rep.getD []
        ∨ "mica_non_compliant" ∈ rep.getD []) →
      classify_risk score rep = "Extreme Risk") ∧
    (¬("eu_unlicensed_stablecoin" ∈ rep.getD [] ∨ "eu_regulatory_issues" ∈ rep.getD []
        ∨ "mica_non_compliant" ∈ rep.getD []) →
      classify_risk score rep =
        (if score ≤ 50 then "Low Risk" else if score ≤ 100 then "Medium Risk"
          else if score ≤ 120 then "High Risk" else "Extreme Risk")) := by
  rcases rep with _ | flags
  · refine ⟨fun h => ?_, fun _ => rfl⟩
    simp only [Option.getD_none, List.not_mem_nil, or_self] at h
  · simp only [Option.getD_some]
    constructor
    · intro h
      simp only [classify_risk]
      by_cases h1 : "eu_unlicensed_stablecoin" ∈ flags
      · rw [if_pos h1]
      · rw [if_neg h1]
        by_cases h2 : "eu_regulatory_issues" ∈ flags
        · rw [if_pos h2]
        · rw [if_neg h2]
          have h3 : "mica_non_compliant" ∈ flags := by tauto
          rw [if_pos h3]
    · intro h
      push_neg at h
      simp only [classify_risk]
      rw [if_neg h.1, if_neg h.2.1, if_neg h.2.2]

/-- C2 witness: `eu_unlicensed_stablecoin` forces Extreme Risk even at score
0, while `mica_no_whitepaper` alone leaves the numeric classification. -/
theorem classify_risk_override_precedence_witness :
    classify_risk 0 (some ["eu_unlicensed_stablecoin"]) = "Extreme Risk" ∧
    classify_risk 42 (some ["mica_no_whitepaper"]) =
      (if (42 : ℚ) ≤ 50 then "Low Risk" else if (42 : ℚ) ≤ 100 then "Medium Risk"
        else if (42 : ℚ) ≤ 120 then "High Risk" else "Extreme Risk") :=
  ⟨(classify_risk_override_precedence 0 (some ["eu_unlicensed_stablecoin"])).1
      (Or.inl (by decide)),
    (classify_risk_override_precedence 42 (some ["mica_no_whitepaper"])).2 (by decide)⟩

/-- C5 (corrected).  Every one of the 15 scoring functions returns a value
in `[1,10]` for every fact record (the three `round`-based ones even in
`[1,9]`), and the final aggregated score is clamped to `[0,150]` — but the
returned value is not always an integer: several functions apply `0.5`
steps and clamp without rounding (see the counterexample). -/
theorem component_and_final_score_ranges :
    (∀ r : RiskReport,
      (1 ≤ score_industry_impact r ∧ score_industry_impact r ≤ 10) ∧
      (1 ≤ score_tech_innovation r ∧ score_tech_innovation r ≤ 10) ∧
      (1 ≤ score_whitepaper_quality r ∧ score_whitepaper_quality r ≤ 10) ∧
      (1 ≤ score_roadmap_adherence r ∧ score_roadmap_adherence r ≤ 10) ∧
      (1 ≤ score_business_model r ∧ score_business_model r ≤ 10) ∧
      (1 ≤ score_team_expertise r ∧ score_team_expertise r ≤ 10) ∧
      (1 ≤ score_management_strategy r ∧ score_management_strategy r ≤ 10) ∧
      (1 ≤ score_global_reach r ∧ score_global_reach r ≤ 10) ∧
      (1 ≤ score_code_security r ∧ score_code_security r ≤ 10) ∧
      (1 ≤ score_dev_activity r ∧ score_dev_activity r ≤ 10) ∧
      (1 ≤ score_market_dynamics r ∧ score_market_dynamics r ≤ 10) ∧
      (1 ≤ score_marketing_demand r ∧ score_marketing_demand r ≤ 10) ∧
      (1 ≤ score_esg_impact r ∧ score_esg_impact r ≤ 10)) ∧
    (∀ (certikReports : List CertikReport) (scorechain trmlabs : Option ℚ),
      1 ≤ score_aml_data certikReports scorechain trmlabs ∧
        score_aml_data certikReports scorechain trmlabs ≤ 10) ∧
    (∀ (r : RiskReport) (openSanctions lukka alchemy defisafety : Option ℚ),
      1 ≤ score_compliance_data r openSanctions lukka alchemy defisafety ∧
        score_compliance_data r openSanctions lukka alchemy defisafety ≤ 10) ∧
    (∀ (scores : String → ℚ) (flags : List String),
      0 ≤ finalRiskScore scores flags ∧ finalRiskScore scores flags ≤ 150) :=
  ⟨fun r =>
    ⟨score_industry_impact_range r, score_tech_innovation_range r,
      score_whitepaper_quality_range r, score_roadmap_adherence_range r,
      score_business_model_range r, score_team_expertise_range r,
      score_management_strategy_range r, score_global_reach_range r,
      score_code_security_range r, score_dev_activity_range r,
      score_market_dynamics_range r, score_marketing_demand_range r,
      score_esg_impact_range r⟩,
    score_aml_data_range, score_compliance_data_range, finalRiskScore_range⟩

/-- A record whose only datum is a CoinGecko community score of 60. -/
def nonIntegerScoreInput : RiskReport :=
  { RiskReport.empty with
    market := some ⟨some { Coingecko.empty with community_score := 60 }⟩ }

unseal Rat.add Rat.sub Rat.mul Rat.inv in
/-- C5 counterexample: `score_roadmap_adherence` applies the `-0.5`
community-score step and returns `4.5` — a value in `[1,10]` that is not an
integer (its reduced denominator is 2). -/
theorem score_roadmap_adherence_non_integer_cex :
    score_roadmap_adherence nonIntegerScoreInput = 9/2 ∧ ((9 : ℚ)/2).den = 2 := by
  constructor <;> decide

unseal Rat.add Rat.sub Rat.mul Rat.inv in
/-- C6 (corrected).  On the entirely empty fact record, only
`industry_impact`, `tech_innovation` and `business_model` return 7; the
other twelve scoring functions return 6, 8, 9 or 10 (with no external data,
`score_aml_data`/`score_compliance_data` see empty fetch results). -/
theorem scores_on_empty_record :
    score_industry_impact RiskReport.empty = 7 ∧
    score_tech_innovation RiskReport.empty = 7 ∧
    score_whitepaper_quality RiskReport.empty = 10 ∧
    score_roadmap_adherence RiskReport.empty = 10 ∧
    score_business_model RiskReport.empty = 7 ∧
    score_team_expertise RiskReport.empty = 10 ∧
    score_management_strategy RiskReport.empty = 6 ∧
    score_global_reach RiskReport.empty = 6 ∧
    score_code_security RiskReport.empty = 9 ∧
    score_dev_activity RiskReport.empty = 8 ∧
    score_aml_data [] none none = 9 ∧
    score_compliance_data RiskReport.empty none none none none = 9 ∧
    score_market_dynamics RiskReport.empty = 6 ∧
    score_marketing_demand RiskReport.empty = 10 ∧
    score_esg_impact RiskReport.empty = 10 := by
  refine ⟨?_, ?_, ?_, ?_, ?_, ?_, ?_, ?_, ?_, ?_, ?_, ?_, ?_, ?_, ?_⟩ <;> decide

unseal Rat.add Rat.sub Rat.mul Rat.inv in
/-- C6 counterexample: `score_management_strategy` on the empty record
returns 6 (the `liquidity < 100000` fallback fires), not the claimed 7. -/
theorem score_management_strategy_empty_cex :
    score_management_strategy RiskReport.empty = 6 ∧ (6 : ℚ) ≠ 7 := by
  constructor <;> decide

/-- C3 (corrected, the part that holds).  `detect_red_flags` never emits
`low_liquidity`, `high_concentration` or `unverified_contract` for a
well-known token, whatever the fetched facts are: those three branches are
all guarded by `not is_well_known`. -/
theorem detect_red_flags_well_known_exempt (chainSupported : Bool)
    (minLiquidity liquidity : ℚ) (holders : HolderData) (contractVerified : String)
    (contractAgeDays : Option Int) (volume24h : ℚ) (sourceCode : Option String) :
    "low_liquidity" ∉ detect_red_flags chainSupported true minLiquidity liquidity holders
        contractVerified contractAgeDays volume24h sourceCode ∧
    "high_concentration" ∉ detect_red_flags chainSupported true minLiquidity liquidity holders
        contractVerified contractAgeDays volume24h sourceCode ∧
    "unverified_contract" ∉ detect_red_flags chainSupported true minLiquidity liquidity holders
        contractVerified contractAgeDays volume24h sourceCode := by
  unfold detect_red_flags
  cases chainSupported
  · simp
  · rcases sourceCode with _ | src <;>
      simp only [Bool.not_true, Bool.false_and, Bool.if_false_left] <;>
      split_ifs <;> simp

/-- C3 counterexample: a well-known token (`wellKnown = true`) with
liquidity 1000 below the eth minimum 5000000 still ends the assessment with
`low_liquidity` in its red-flag list, because
`apply_strict_compliance_checks` has no well-known exemption. -/
theorem well_known_still_flagged_cex :
    assessmentRedFlags true true 5000000 1000 ⟨2000000, 30⟩ "verified" none 1000000000 none
      "0xaaa" "XYZ" "" true = ["low_liquidity"] := by
  decide

/-- C4 (corrected, the part that holds).  The phase-1 merge of lines
1808-1814 (`list(set(existing + new))`) always yields a duplicate-free
list, and the boost loop of lines 1898-1904 adds `boostOf f` once per list
occurrence of `f` — so a flag duplicated by the compliance pass is boosted
twice (see the counterexample). -/
theorem merge_dedups_and_boost_is_per_occurrence :
    (∀ existing new : List String, ((existing ++ new).dedup).Nodup) ∧
    (∀ (flags : List String) (f : String),
      totalBoost (flags ++ [f]) = totalBoost flags + boostOf f) := by
  constructor
  · intro e n
    exact List.nodup_dedup _
  · intro flags f
    simp [totalBoost]

unseal Rat.add Rat.sub Rat.mul Rat.inv in
/-- C4 counterexample: a non-well-known token with `0 < liquidity <
min_liquidity` gets `low_liquidity` from `detect_red_flags` and a second
`low_liquidity` appended by `apply_strict_compliance_checks`, and the boost
loop then adds `12` twice. -/
theorem duplicate_flag_double_boost_cex :
    assessmentRedFlags true false 5000000 1000 ⟨2000000, 30⟩ "verified" none 1000000000 none
        "0xaaa" "XYZ" "" true = ["low_liquidity", "low_liquidity"] ∧
    totalBoost ["low_liquidity", "low_liquidity"] = 24 ∧
    totalBoost ["low_liquidity"] = 12 := by
  refine ⟨by decide, by decide, by decide⟩

/-- C7 (corrected).  The no-holder-data defaults are
`total_holders = 0`, `top10_concentration = 100`; with them
`detect_red_flags` can never emit `high_concentration` (its guard requires
`total_holders > 0`), while `apply_strict_compliance_checks` always appends
`high_concentration` for such a record (`total_holders < 1000`), with no
well-known exemption. -/
theorem default_holders_high_concentration (chainSupported wellKnown : Bool)
    (minLiquidity liquidity : ℚ) (contractVerified : String)
    (contractAgeDays : Option Int) (volume24h : ℚ) (sourceCode : Option String)
    (tokenAddrLower symbolUpper description : String) (hasWhitepaper : Bool)
    (flags : List String) :
    defaultHolders.total_holders = 0 ∧ defaultHolders.top10_concentration = 100 ∧
    "high_concentration" ∉ detect_red_flags chainSupported wellKnown minLiquidity liquidity
        defaultHolders contractVerified contractAgeDays volume24h sourceCode ∧
    "high_concentration" ∈ apply_strict_compliance_checks true minLiquidity tokenAddrLower
        symbolUpper description hasWhitepaper liquidity contractVerified defaultHolders
        flags := by
  refine ⟨rfl, rfl, ?_, ?_⟩
  · unfold detect_red_flags
    cases chainSupported
    · simp
    · cases wellKnown <;>
        · rcases sourceCode with _ | src <;>
            simp only [defaultHolders, Bool.not_true, Bool.not_false, Bool.false_and,
              Bool.true_and, Bool.if_false_left] <;>
            split_ifs <;> simp_all
  · unfold apply_strict_compliance_checks
    have hcond : (decide (defaultHolders.top10_concentration > 50) ||
        decide (defaultHolders.total_holders < 1000)) = true := by decide
    simp only [Bool.not_true, Bool.if_false_left, Bool.not_false, if_true, hcond]
    exact List.mem_append_right _ (by simp)

/-- C7 counterexample: with the default (no data) holder record and a
not-well-known token, the detector alone emits nothing, while the full
assessment of a WELL-KNOWN token still ends with `high_concentration` —
the claim is wrong in both directions. -/
theorem default_concentration_cex :
    detect_red_flags true false 5000000 6000000 defaultHolders "verified" none 1000000
        none = [] ∧
    assessmentRedFlags true true 5000000 6000000 defaultHolders "verified" none 1000000 none
        "0xaaa" "XYZ" "" true = ["high_concentration"] := by
  constructor <;> decide

/-- Every boost the table can return is non-negative. -/
theorem boostOf_nonneg (f : String) : 0 ≤ boostOf f := by
  unfold boostOf
  rcases h : RED_FLAGS.find? (fun p => p.1 = f) with _ | p
  · simp [h]
  · have hp := List.mem_of_find?_eq_some h
    have hall : ∀ q ∈ RED_FLAGS, (0 : ℚ) ≤ q.2 := by decide
    simp only [h, Option.map_some, Option.getD_some]
    exact hall p hp

unseal Rat.add Rat.sub Rat.mul Rat.inv in
/-- C8 (confirmed).  Every table boost is non-negative, consing any flag of
the table onto the flag list never decreases the final clamped score,
`mica_no_whitepaper` has boost exactly 0, and a name outside the table
contributes 0 without error (the `next(..., 0)` default). -/
theorem red_flag_boost_monotone :
    (∀ p ∈ RED_FLAGS, (0 : ℚ) ≤ p.2) ∧
    (∀ (scores : String → ℚ) (flags : List String) (f : String),
      f ∈ RED_FLAGS.map Prod.fst →
      finalRiskScore scores flags ≤ finalRiskScore scores (f :: flags)) ∧
    boostOf "mica_no_whitepaper" = 0 ∧
    (∀ g, g ∉ RED_FLAGS.map Prod.fst → boostOf g = 0) := by
  refine ⟨by decide, ?_, by decide, ?_⟩
  · intro scores flags f _
    unfold finalRiskScore
    have hb : totalBoost (f :: flags) = boostOf f + totalBoost flags := by
      simp [totalBoost]
    rw [hb]
    have hf := boostOf_nonneg f
    exact min_le_min le_rfl (max_le_max le_rfl (by linarith))
  · intro g hg
    unfold boostOf
    have hnone : RED_FLAGS.find? (fun p => p.1 = g) = none := by
      rw [List.find?_eq_none]
      intro p hp
      simp only [decide_eq_true_eq]
      intro hEq
      exact hg (hEq ▸ List.mem_map_of_mem Prod.fst hp)
    rw [hnone]
    rfl

unseal Rat.add Rat.sub Rat.mul Rat.inv in
/-- C8 witness: at the constant score map 5, consing `low_liquidity` onto
the empty flag list does not decrease the final score, and an unknown name
has boost 0. -/
theorem red_flag_boost_monotone_witness :
    finalRiskScore (fun _ => 5) [] ≤ finalRiskScore (fun _ => 5) ["low_liquidity"] ∧
    boostOf "definitely_not_a_flag" = 0 :=
  ⟨red_flag_boost_monotone.2.1 (fun _ => 5) [] "low_liquidity" (by decide),
    red_flag_boost_monotone.2.2.2 "definitely_not_a_flag" (by decide)⟩

/-- C9 (confirmed).  When the lower-cased chain is not a `CHAIN_CONFIG`
key, `assess_token` immediately returns token, lower-cased chain, score
150, category "Extreme Risk" and the error string
`"Unsupported chain: <chain>"` — and the result does not depend on the rest
of the assessment at all (no fetching, flag detection, scoring or
aggregation is invoked). -/
theorem unsupported_chain_short_circuit (tokenAddress chain : String)
    (run other : String → AssessResult)
    (h : chain.pyLower ∉ CHAIN_KEYS) :
    assess_token_entry tokenAddress chain run =
      { token := tokenAddress, chain := chain.pyLower, risk_score := 150,
        risk_category := "Extreme Risk",
        details_error := some ("Unsupported chain: " ++ chain.pyLower) } ∧
    assess_token_entry tokenAddress chain run = assess_token_entry tokenAddress chain other := by
  unfold assess_token_entry
  rw [if_neg h]
  exact ⟨rfl, by rw [if_neg h]⟩

/-- C9 witness: chain "solana" short-circuits with the exact error string. -/
theorem unsupported_chain_short_circuit_witness :
    assess_token_entry "0xdAC17F958D2ee523a2206206994597C13D831ec7" "solana"
        (fun c => ⟨"", c, 0, "", none⟩) =
      { token := "0xdAC17F958D2ee523a2206206994597C13D831ec7", chain := "solana",
        risk_score := 150, risk_category := "Extreme Risk",
        details_error := some "Unsupported chain: solana" } :=
  (unsupported_chain_short_circuit "0xdAC17F958D2ee523a2206206994597C13D831ec7" "solana"
      (fun c => ⟨"", c, 0, "", none⟩) (fun c => ⟨"", c, 0, "", none⟩) (by decide)).1

/-- C10 (confirmed).  The scoring loop substitutes the fixed default 7 for
any component whose scoring call raised, still produces one entry per
`WEIGHTS` component (the assessment continues), and the outer handler turns
any uncaught exception into the fully-typed fallback result instead of
propagating it. -/
theorem component_error_defaults_to_seven (outcomes : String → Except String ℚ) :
    (componentScores outcomes).length = 15 ∧
    (∀ c e, outcomes c = .error e → componentScoreOf outcomes c = 7) ∧
    (∀ c ∈ COMPONENT_NAMES, (c, componentScoreOf outcomes c) ∈ componentScores outcomes) ∧
    (∀ tokenAddress chain e,
      assess_token_catch tokenAddress chain (.error e) =
        { token := tokenAddress, chain := chain, risk_score := 150,
          risk_category := "Extreme Risk", details_error := some e }) := by
  refine ⟨by simp [componentScores, WEIGHTS], ?_, ?_, fun _ _ _ => rfl⟩
  · intro c e h
    simp [componentScoreOf, h]
  · intro c hc
    simp only [COMPONENT_NAMES] at hc
    rcases List.mem_map.1 hc with ⟨p, hp, hpe⟩
    subst hpe
    exact List.mem_map_of_mem (fun q => (q.1, componentScoreOf outcomes q.1)) hp

/-- A scoring-outcome map where exactly one component raises. -/
def outcomesWithOneError : String → Except String ℚ :=
  fun c => if c = "industry_impact" then .error "boom" else .ok 3

/-- C10 witness: with `industry_impact` raising, its score is 7 and the map
still has all 15 entries. -/
theorem component_error_defaults_to_seven_witness :
    componentScoreOf outcomesWithOneError "industry_impact" = 7 ∧
    (componentScores outcomesWithOneError).length = 15 :=
  ⟨(component_error_defaults_to_seven outcomesWithOneError).2.1 "industry_impact" "boom"
      (by simp [outcomesWithOneError]),
    (component_error_defaults_to_seven outcomesWithOneError).1⟩

end DeFi

